import Mathlib

/-!
Verification development for the tpcds-util core: the SQL script splitter and
schema rewriter (`database.py`), the bulk loader (`loader.py`), and the
synthetic data generator (`synthetic_generator.py`).

Python code is shallowly embedded.  Text processing is modelled over `List
Char` with structural recursion (strings are converted at the boundaries).
Machine floats that only carry money/ratios are modelled as exact rationals.
Every call to the `random` module is replaced by an explicit entropy
parameter, so each generated record is a deterministic function of its draws:
`random.choice` becomes an indexed pick from the list (always a member of a
nonempty list), `random.randint(lo, hi)` becomes `lo + d % (hi + 1 - lo)`
(always within `[lo, hi]` when `lo ≤ hi`), and `random.uniform(a, b)` becomes
`a + (b - a) * clamp d` for a rational draw `d`.
-/

namespace TpcdsUtil

/-! ### Character-list string primitives

Structural models of the Python string operations used by `database.py` and
`loader.py`: `str.strip`, `str.upper`, `in` (substring), `str.startswith`,
`str.endswith`, `str.split`. -/

/-- Python `str.strip()`: drop leading and trailing whitespace. -/
def trimL (l : List Char) : List Char :=
  ((l.dropWhile Char.isWhitespace).reverse.dropWhile Char.isWhitespace).reverse

/-- Python `str.upper()` (ASCII fragment). -/
def toUpperL (l : List Char) : List Char := l.map Char.toUpper

/-- Whether `needle` occurs at the head of `hay` (used for `startswith` and as
the inner step of the substring test). -/
def listStartMatch : List Char → List Char → Bool
  | [], _ => true
  | _ :: _, [] => false
  | p :: ps, c :: cs => p = c && listStartMatch ps cs

/-- Python's `needle in hay` substring test. -/
def listContains (needle : List Char) : List Char → Bool
  | [] => needle.isEmpty
  | c :: cs => listStartMatch needle (c :: cs) || listContains needle cs

/-- Python `s.split(sep)` for a one-character separator, keeping empty
segments (`acc` is the current segment, reversed). -/
def splitOnChar (sep : Char) : List Char → List Char → List (List Char)
  | [], acc => [acc.reverse]
  | c :: cs, acc =>
    if c = sep then acc.reverse :: splitOnChar sep cs []
    else splitOnChar sep cs (c :: acc)

/-! ### database.py: statement splitting (`execute_sql_file` lines 168-210) -/

/-- Python `"BEGIN" in current_stmt.upper() or "DECLARE" in current_stmt.upper()`:
case-insensitive substring test against the two procedural-block keywords. -/
def hasBlockKeyword (cur : List Char) : Bool :=
  (listContains "BEGIN".toList (toUpperL cur)) ||
    (listContains "DECLARE".toList (toUpperL cur))

/-- State of the line scanner inside `execute_sql_file`: the statements emitted
so far and the statement currently being accumulated. -/
structure SplitState where
  statements : List (List Char)
  current : List Char

/-- One iteration of the `for line in lines` loop of `execute_sql_file`:
blank and `--` comment lines are skipped; a line that is exactly `/` flushes
the accumulated statement; a line ending in `;` outside a BEGIN/DECLARE block
is appended without its semicolon (no separator, as in the source) and
flushed; any other line is appended with a newline separator. -/
def splitStep (st : SplitState) (line : List Char) : SplitState :=
  let stripped := trimL line
  if listStartMatch "--".toList stripped || stripped.isEmpty then st
  else if stripped = ['/'] then
    if (trimL st.current).isEmpty then ⟨st.statements, []⟩
    else ⟨st.statements ++ [trimL st.current], []⟩
  else if (stripped.getLast? = some ';') && !(hasBlockKeyword st.current) then
    let cur := st.current ++ stripped.dropLast
    if (trimL cur).isEmpty then ⟨st.statements, []⟩
    else ⟨st.statements ++ [trimL cur], []⟩
  else
    if st.current.isEmpty then ⟨st.statements, stripped⟩
    else ⟨st.statements, st.current ++ '\n' :: stripped⟩

/-- The statement-splitting pass of `execute_sql_file`: split on newlines, run
the scanner, flush any trailing unterminated statement, and filter out empty
statements and comment-only statements. -/
def splitSqlStatements (content : String) : List String :=
  let st := (splitOnChar '\n' content.toList []).foldl splitStep ⟨[], []⟩
  let stmts :=
    if (trimL st.current).isEmpty then st.statements
    else st.statements ++ [trimL st.current]
  (stmts.filter
    (fun s => !(trimL s).isEmpty && !listStartMatch "--".toList (trimL s))).map
    String.mk

/-! ### database.py: `_qualify_sql_for_schema` (lines 79-146)

The two regex substitutions `\bcreate\s+table\s+NAME\b` and
`\bdrop\s+table\s+NAME\b` (IGNORECASE flag) are modelled by a character-level
scanner: a match needs a non-word character (or the string start) before the
verb, one-or-more whitespace characters between the words, and a non-word
character (or the string end) after the table name.  `re.sub` replaces
non-overlapping matches left to right and resumes scanning after the replaced
span.  The scanners run on fuel initialised to the input length; every step
consumes at least one character, so the fuel never runs out. -/

/-- Python regex word character (`\w`): letter, digit, or underscore. -/
def isWordChar (c : Char) : Bool := c.isAlphanum || c = '_'

/-- Case-insensitive literal match, returning the remaining characters. -/
def matchLit : List Char → List Char → Option (List Char)
  | [], cs => some cs
  | _ :: _, [] => none
  | p :: ps, c :: cs => if c.toLower = p.toLower then matchLit ps cs else none

/-- Case-sensitive literal match, returning the remaining characters. -/
def matchLitCS : List Char → List Char → Option (List Char)
  | [], cs => some cs
  | _ :: _, [] => none
  | p :: ps, c :: cs => if c = p then matchLitCS ps cs else none

/-- `\s+`: one or more whitespace characters (greedy, like the regex, since
the token that follows never starts with whitespace). -/
def matchSpaces : List Char → Option (List Char)
  | [] => none
  | c :: cs =>
    if c.isWhitespace then some (cs.dropWhile Char.isWhitespace) else none

/-- Match `verb\s+table\s+tbl\b` case-insensitively at the head of `cs`,
returning the characters after the match. -/
def matchVerbTable (verb tbl : List Char) (cs : List Char) : Option (List Char) :=
  (matchLit verb cs).bind fun r1 =>
  (matchSpaces r1).bind fun r2 =>
  (matchLit ("table".toList) r2).bind fun r3 =>
  (matchSpaces r3).bind fun r4 =>
  (matchLit tbl r4).bind fun r5 =>
  match r5 with
  | [] => some []
  | c :: _ => if isWordChar c then none else some r5

/-- Fuelled scanner for one `re.sub` of `verb\s+table\s+tbl\b` by `repl`,
tracking whether the previous character was a word character (the leading
`\b`); after a replacement, scanning resumes after the matched span with the
boundary state of its last character (the table name ends in a word
character). -/
def subVerbTableGo (verb tbl repl : List Char) :
    Nat → List Char → Bool → List Char
  | 0, cs, _ => cs
  | _ + 1, [], _ => []
  | fuel + 1, c :: cs, prevWord =>
    if prevWord then c :: subVerbTableGo verb tbl repl fuel cs (isWordChar c)
    else
      match matchVerbTable verb tbl (c :: cs) with
      | some rest => repl ++ subVerbTableGo verb tbl repl fuel rest true
      | none => c :: subVerbTableGo verb tbl repl fuel cs (isWordChar c)

/-- One `re.sub(pattern, repl, text, flags=IGNORECASE)` call of
`_qualify_sql_for_schema`. -/
def subVerbTable (verb tbl repl cs : List Char) : List Char :=
  subVerbTableGo verb tbl repl cs.length cs false

/-- The fixed TPC-DS table-name list of `_qualify_sql_for_schema`. -/
def tpcdsTables : List String :=
  ["CALL_CENTER", "CATALOG_PAGE", "CATALOG_RETURNS", "CATALOG_SALES",
   "CUSTOMER", "CUSTOMER_ADDRESS", "CUSTOMER_DEMOGRAPHICS", "DATE_DIM",
   "HOUSEHOLD_DEMOGRAPHICS", "INCOME_BAND", "INVENTORY", "ITEM", "PROMOTION",
   "REASON", "SHIP_MODE", "STORE", "STORE_RETURNS", "STORE_SALES", "TIME_DIM",
   "WAREHOUSE", "WEB_PAGE", "WEB_RETURNS", "WEB_SALES", "WEB_SITE",
   "DBGEN_VERSION"]

/-- One loop iteration of `_qualify_sql_for_schema`: substitute the CREATE
pattern and then the DROP pattern for one table name.  The replacement text is
the lowercase f-string `f"create table {target_schema}.{table}"`. -/
def applyTableSub (target : List Char) (text : List Char) (tbl : String) :
    List Char :=
  let t1 := subVerbTable "create".toList tbl.toList
    ("create table ".toList ++ target ++ '.' :: tbl.toList) text
  subVerbTable "drop".toList tbl.toList
    ("drop table ".toList ++ target ++ '.' :: tbl.toList) t1

/-- Python `str.replace` (replace every occurrence, left to right), fuelled by
the input length. -/
def replaceAllGo (needle repl : List Char) : Nat → List Char → List Char
  | 0, cs => cs
  | _ + 1, [] => []
  | fuel + 1, c :: cs =>
    if listStartMatch needle (c :: cs) ∧ needle ≠ [] then
      repl ++ replaceAllGo needle repl fuel ((c :: cs).drop needle.length)
    else c :: replaceAllGo needle repl fuel cs

/-- Python `text.replace(needle, repl)`. -/
def replaceAllL (needle repl cs : List Char) : List Char :=
  replaceAllGo needle repl cs.length cs

/-- Match `all_tables WHERE owner = '[^']+' WHERE` (case-sensitive; the
character class cannot cross a quote, so greedy matching is exact), returning
the remainder after the match. -/
def matchOwnerWhere (cs : List Char) : Option (List Char) :=
  (matchLitCS "all_tables WHERE owner = '".toList cs).bind fun r1 =>
  let inner := r1.takeWhile (fun c => c ≠ '\'')
  let rest := r1.dropWhile (fun c => c ≠ '\'')
  if inner.isEmpty then none else matchLitCS "' WHERE".toList rest

/-- Fuelled scanner for the double-WHERE fix `re.sub` (that pattern has no
word-boundary anchors). -/
def subOwnerWhereGo (repl : List Char) : Nat → List Char → List Char
  | 0, cs => cs
  | _ + 1, [] => []
  | fuel + 1, c :: cs =>
    match matchOwnerWhere (c :: cs) with
    | some rest => repl ++ subOwnerWhereGo repl fuel rest
    | none => c :: subOwnerWhereGo repl fuel cs

/-- `_qualify_sql_for_schema(sql_content, target_schema)`: no-op on an empty
target; otherwise qualify `CREATE TABLE` / `DROP TABLE` for every known table
name, then rewrite `user_tables` catalog queries to owner-filtered
`all_tables` queries, repairing any doubled WHERE into AND. -/
def qualifySqlForSchema (sqlContent target : String) : String :=
  if target = "" then sqlContent
  else
    let m1 := tpcdsTables.foldl (applyTableSub target.toList) sqlContent.toList
    if listContains "user_tables".toList m1 then
      let m2 := replaceAllL "user_tables".toList
        ("all_tables WHERE owner = '".toList ++ toUpperL target.toList ++ ['\'']) m1
      String.mk (subOwnerWhereGo
        ("all_tables WHERE owner = '".toList ++ toUpperL target.toList ++
          "' AND".toList) m2.length m2)
    else String.mk m1

/-! ### database.py: `execute_sql_file` (lines 148-254)

The environment abstracts the outside world: whether the file exists and its
content, whether a connection could be obtained, and which statements raise
`oracledb.Error` when executed.  The function logs a per-statement failure and
continues; the code path that completes the loop unconditionally returns
`True`, and `False` is produced only by the missing-file early return or by
the surrounding `except` (e.g. connection failure). -/

/-- Abstraction of the world `execute_sql_file` interacts with. -/
structure SqlFileEnv where
  fileContent : Option String
  connOk : Bool
  stmtFails : Nat → Bool

/-- `execute_sql_file(sql_file, target_schema)`: returns the boolean result
and the number of statements whose execution failed (each merely logged in
the source). -/
def executeSqlFile (env : SqlFileEnv) (targetSchema : Option String) :
    Bool × Nat :=
  match env.fileContent with
  | none => (false, 0)
  | some content =>
    let content2 :=
      match targetSchema with
      | some ts => if ts ≠ "" then qualifySqlForSchema content ts else content
      | none => content
    let stmts := splitSqlStatements content2
    if env.connOk then
      (true, ((List.range stmts.length).filter env.stmtFails).length)
    else (false, 0)

/-! ### loader.py: field coercion (`_load_table_direct` lines 215-271) -/

/-- A value bound into an INSERT: Python `None`, `str`, `int` or `float`
(floats modelled as exact rationals). -/
inductive SqlValue where
  | vNull : SqlValue
  | vStr : String → SqlValue
  | vInt : Int → SqlValue
  | vDec : ℚ → SqlValue
deriving DecidableEq

/-- Accumulate a digit string into a natural number; fails on a non-digit. -/
def digitsVal : List Char → Nat → Option Nat
  | [], acc => some acc
  | c :: cs, acc =>
    if c.isDigit then digitsVal cs (acc * 10 + (c.toNat - '0'.toNat)) else none

/-- Nonempty all-digit string to a natural number. -/
def parseNatL (l : List Char) : Option Nat :=
  if l.isEmpty then none else digitsVal l 0

/-- Model of Python `int(v)` on signed digit strings (the loader's inputs are
generator-written fields; exotic forms such as underscores or surrounding
whitespace do not occur there and are not modelled). -/
def parseIntL : List Char → Option Int
  | '-' :: rest => (parseNatL rest).map (fun n => -(n : Int))
  | '+' :: rest => (parseNatL rest).map (fun n => (n : Int))
  | l => (parseNatL l).map (fun n => (n : Int))

/-- Unsigned decimal literal with at most one point: `digits`, `digits.`,
`.digits` or `digits.digits`. -/
def parseDecCore (l : List Char) : Option ℚ :=
  let ip := l.takeWhile (fun c => c ≠ '.')
  let rest := l.dropWhile (fun c => c ≠ '.')
  match rest with
  | [] => (parseNatL ip).map (fun n => (n : ℚ))
  | _ :: fp =>
    if fp.contains '.' then none
    else if ip.all Char.isDigit && fp.all Char.isDigit &&
        !(ip.isEmpty && fp.isEmpty) then
      (digitsVal (ip ++ fp) 0).map (fun m => (m : ℚ) / (10 ^ fp.length))
    else none

/-- Model of Python `float(v)` on plain signed decimal literals (the only
forms the generator writes; exponents, `inf` and `nan` are not modelled). -/
def parseDecL : List Char → Option ℚ
  | '-' :: rest => (parseDecCore rest).map (fun q => -q)
  | '+' :: rest => parseDecCore rest
  | l => parseDecCore l

/-- Per-field coercion of `_load_table_direct`: empty → NULL; `DATE` columns
keep the string iff it has length 10 and exactly two `-` characters, else
NULL; `NUMBER` columns parse as float iff a `.` is present and as int
otherwise, with NULL on a parse failure; every other type passes the string
through. -/
def coerceField (colType : String) (v : List Char) : SqlValue :=
  if v.isEmpty then .vNull
  else if colType = "DATE" then
    if v.length = 10 && v.countP (fun c => c = '-') = 2 then .vStr (String.mk v)
    else .vNull
  else if colType = "NUMBER" then
    if v.contains '.' then
      match parseDecL v with
      | some q => .vDec q
      | none => .vNull
    else
      match parseIntL v with
      | some n => .vInt n
      | none => .vNull
  else .vStr (String.mk v)

/-- Python `while values and values[-1] == "": values.pop()`. -/
def dropTrailingEmpties (vals : List (List Char)) : List (List Char) :=
  (vals.reverse.dropWhile List.isEmpty).reverse

/-- Pad with empty fields, then truncate, to exactly `n` fields. -/
def padTruncate (vals : List (List Char)) (n : Nat) : List (List Char) :=
  (vals ++ List.replicate (n - vals.length) []).take n

/-- Row ingestion of `_load_table_direct` for one line: strip, split on `|`,
drop trailing empty fields, pad/truncate to the column count, and coerce each
field against its column type. -/
def processLine (colTypes : List String) (line : List Char) : List SqlValue :=
  let values := splitOnChar '|' (trimL line) []
  let values := dropTrailingEmpties values
  let values := padTruncate values colTypes.length
  (values.zip colTypes).map (fun vt => coerceField vt.2 vt.1)

/-! ### loader.py: batching (`_load_table_direct` lines 273-333) -/

/-- Fuelled chunking (the loop flushes `batch_data` whenever it reaches the
batch size and once more at end of file); fuel `l.length` suffices for any
positive chunk size. -/
def chunksOfGo (n : Nat) : Nat → List α → List (List α)
  | _, [] => []
  | 0, l => [l]
  | fuel + 1, l => l.take n :: chunksOfGo n fuel (l.drop n)

/-- The successive batches (size `n`, last one possibly short). -/
def chunksOf (n : Nat) (l : List α) : List (List α) := chunksOfGo n l.length l

/-- Rows inserted from one batch: `cursor.executemany` succeeds iff every row
satisfies the destination constraints, inserting the whole batch; on failure
the loop retries row by row, skipping (only) the individually failing rows. -/
def insertBatch (rowOk : α → Bool) (batch : List α) : Nat :=
  if batch.all rowOk then batch.length else batch.countP rowOk

/-- Total `rows_inserted` after all batches of one table load. -/
def rowsInserted (rowOk : α → Bool) (rows : List α) : Nat :=
  ((chunksOf 1000 rows).map (insertBatch rowOk)).sum

/-- Abstraction of the destination state for one `_load_table_direct` call:
the catalog column metadata (empty when the table is absent), whether the
metadata query itself raised, the data file's lines, and which coerced rows
the destination accepts. -/
structure TableLoadEnv where
  columns : List (String × String)
  catalogOk : Bool
  fileLines : List String
  rowOk : List SqlValue → Bool

/-- `_load_table_direct(table, data_file)`: fail when the column metadata
query raises or returns no columns; otherwise ingest every non-blank line and
report success iff `rows_inserted > 0`. -/
def loadTableDirect (env : TableLoadEnv) : Bool :=
  if !env.catalogOk then false
  else if env.columns.isEmpty then false
  else
    let colTypes := env.columns.map Prod.snd
    let rows := (env.fileLines.filter (fun l => !(trimL l.toList).isEmpty)).map
      (fun l => processLine colTypes l.toList)
    rowsInserted env.rowOk rows > 0

/-! ### loader.py: `load_data` (lines 335-458) -/

/-- Abstraction of the world `load_data` interacts with: the tables whose
data files were discovered (in discovery order), the connectivity probe
result, and each table's per-table load outcome.  The parallel and the
sequential paths tally identically. -/
structure LoadDataEnv where
  foundFiles : List String
  connOk : Bool
  tableLoadOk : String → Bool

/-- `load_data(data_dir, parallel, table)`: fail immediately when no data
files were found, when the requested single table has no file, or when the
connection probe fails; otherwise succeed iff every selected table's load
succeeded. -/
def loadData (env : LoadDataEnv) (table : Option String) : Bool :=
  if env.foundFiles.isEmpty then false
  else
    let narrowed : Option (List String) :=
      match table with
      | some t => if env.foundFiles.contains t then some [t] else none
      | none => some env.foundFiles
    match narrowed with
    | none => false
    | some files =>
      if !env.connOk then false
      else files.countP env.tableLoadOk == files.length

/-! ### synthetic_generator.py: calendar model

`datetime.date` is modelled by a civil (year, month, day) triple in the
proleptic Gregorian calendar, with `toordinal`-compatible day numbering
(ordinal 1 = year 1, January 1, a Monday). -/

/-- A calendar date. -/
structure Civil where
  y : Nat
  m : Nat
  d : Nat
deriving DecidableEq

/-- Gregorian leap year. -/
def isLeapYear (y : Nat) : Bool := (y % 4 == 0 && y % 100 != 0) || y % 400 == 0

/-- Days in a month. -/
def daysInMonth (y m : Nat) : Nat :=
  if m = 2 then (if isLeapYear y then 29 else 28)
  else if m = 4 ∨ m = 6 ∨ m = 9 ∨ m = 11 then 30
  else 31

/-- `current_date + timedelta(days=1)`. -/
def nextDay (c : Civil) : Civil :=
  if c.d < daysInMonth c.y c.m then ⟨c.y, c.m, c.d + 1⟩
  else if c.m < 12 then ⟨c.y, c.m + 1, 1⟩
  else ⟨c.y + 1, 1, 1⟩

/-- `date.toordinal()`: days since 0001-01-00. -/
def toOrdinal (c : Civil) : Nat :=
  365 * (c.y - 1) + (c.y - 1) / 4 + (c.y - 1) / 400 - (c.y - 1) / 100 +
    ((List.range (c.m - 1)).map (fun k => daysInMonth c.y (k + 1))).sum + c.d

/-- `date.weekday()`: Monday = 0 … Sunday = 6. -/
def weekday (c : Civil) : Nat := (toOrdinal c + 6) % 7

/-- The simplified holiday predicate of `generate_date_dimension`. -/
def isHolidayDate (c : Civil) : Bool :=
  (c.m = 12 && (c.d = 24 || c.d = 25 || c.d = 31)) ||
    (c.m = 1 && c.d = 1) || (c.m = 7 && c.d = 4) ||
    (c.m = 11 && 22 ≤ c.d && c.d ≤ 28 && weekday c = 3)

/-! ### synthetic_generator.py: configuration and random primitives -/

/-- `DataGenerationConfig`. -/
structure GenConfig where
  scale_factor : Nat
  start_date : Civil
  end_date : Civil
  num_customers : Nat
  num_items : Nat
  num_stores : Nat
  num_warehouses : Nat
  num_web_sites : Nat
  num_call_centers : Nat
  seasonal_variance : ℚ
  weekend_boost : ℚ

/-- The scale-0 ("test mode") configuration built by `create_synthetic_data`:
one week of dates, 5 customers, 3 items and a single store, warehouse, web
site and call center; the dataclass defaults supply the variance fields. -/
def testConfig : GenConfig where
  scale_factor := 0
  start_date := ⟨2023, 1, 1⟩
  end_date := ⟨2023, 1, 7⟩
  num_customers := 5
  num_items := 3
  num_stores := 1
  num_warehouses := 1
  num_web_sites := 1
  num_call_centers := 1
  seasonal_variance := 3/10
  weekend_boost := 12/10

/-- `random.choice(l)` under an entropy draw `d`: an indexed pick, always a
member of a nonempty list (Python raises on an empty one; `dflt` is returned
then). -/
def pyChoice (l : List α) (dflt : α) (d : Nat) : α := l.getD (d % l.length) dflt

/-- `random.randint(lo, hi)` (both ends inclusive) under an entropy draw. -/
def randIntN (lo hi d : Nat) : Nat := lo + d % (hi + 1 - lo)

/-- `random.randint(lo, hi)` for integer bounds. -/
def randIntI (lo hi : Int) (d : Nat) : Int := lo + ((d % (hi + 1 - lo).toNat : Nat) : Int)

/-- `random.uniform(lo, hi)` under a rational entropy draw (clamped into
`[0, 1]`). -/
def uniformQ (lo hi : ℚ) (d : ℚ) : ℚ := lo + (hi - lo) * (max 0 (min 1 d))

/-- Python `int(x)`: truncation toward zero. -/
def pyInt (q : ℚ) : Int := q.num.tdiv (q.den : Int)

/-- Round-half-to-even to an integer, as Python's builtin `round`. -/
def halfEven (q : ℚ) : ℤ :=
  if q - ⌊q⌋ < 1/2 then ⌊q⌋
  else if 1/2 < q - ⌊q⌋ then ⌊q⌋ + 1
  else if ⌊q⌋ % 2 = 0 then ⌊q⌋ else ⌊q⌋ + 1

/-- Python `round(x, k)`. -/
def roundTo (k : Nat) (q : ℚ) : ℚ := ((halfEven (q * 10 ^ k) : ℤ) : ℚ) / 10 ^ k

/-- Python `round(x, 2)`, the generator's money rounding. -/
def round2 (q : ℚ) : ℚ := roundTo 2 q

/-- `[i + 1 for i in range(n)]`: every dimension generator assigns surrogate
keys `1, 2, …, n` in construction order, and its key pool is the list of
those keys. -/
def surrogateKeys (n : Nat) : List Nat := (List.range n).map (fun i => i + 1)

/-! ### synthetic_generator.py: dimension generators -/

/-- The claim-relevant columns of a `date_dim` record: the surrogate key, the
calendar date, `d_moy`, and the weekend/holiday flags read back by
`generate_store_sales` (the remaining self-contained columns — sequences,
names, fiscal fields — are not referenced by any fact generator). -/
structure DateRec where
  d_date_sk : Nat
  d_date : Civil
  d_moy : Nat
  d_weekend : Bool
  d_holiday : Bool
deriving DecidableEq

/-- `generate_date_dimension`: one record per day from `start_date` to
`end_date` inclusive, with `d_date_sk = len(dates) + 1` at append time. -/
def generateDateDimension (cfg : GenConfig) : List DateRec :=
  let n := toOrdinal cfg.end_date + 1 - toOrdinal cfg.start_date
  (List.range n).map (fun i =>
    let cur := nextDay^[i] cfg.start_date
    { d_date_sk := i + 1
      d_date := cur
      d_moy := cur.m
      d_weekend := weekday cur ≥ 5
      d_holiday := isHolidayDate cur })

/-- The claim-relevant columns of a `store` record: the surrogate key plus
the two attributes read back by `generate_store_sales` (floor space drives
per-store volume, the tax percentage prices the tax measure). -/
structure StoreRec where
  s_store_sk : Nat
  s_floor_space : Int
  s_tax_precentage : ℚ
deriving DecidableEq

/-- Entropy for one store record. -/
structure StoreDraw where
  typeD : Nat
  floorJitterD : Nat
  taxD : ℚ

/-- The `s_floor_space` base of the four `(type, sq_ft, employees)` tuples in
`generate_stores`. -/
def storeTypeFloors : List Nat := [80000, 50000, 15000, 25000]

/-- `generate_stores`: `num_stores` records with keys `i + 1`, floor space
`sq_ft + randint(-5000, 5000)` and tax `round(uniform(0.05, 0.12), 4)`. -/
def generateStores (cfg : GenConfig) (dr : Nat → StoreDraw) : List StoreRec :=
  (List.range cfg.num_stores).map (fun i =>
    let t := dr i
    { s_store_sk := i + 1
      s_floor_space := (pyChoice storeTypeFloors 0 t.typeD : Int) +
        randIntI (-5000) 5000 t.floorJitterD
      s_tax_precentage := roundTo 4 (uniformQ (5/100) (12/100) t.taxD) })

/-- The claim-relevant columns of an `item` record: the surrogate key and the
two prices read back by every sales generator. -/
structure ItemRec where
  i_item_sk : Nat
  i_current_price : ℚ
  i_wholesale_cost : ℚ
deriving DecidableEq

/-- Entropy for one item record. -/
structure ItemDraw where
  categoryD : Nat
  priceD : ℚ
  wholesaleD : ℚ

/-- The `price_ranges` values of `generate_items`, in the iteration order of
the category dictionary. -/
def priceRanges : List (ℚ × ℚ) :=
  [(20, 2000), (15, 300), (10, 1500), (25, 800), (8, 100), (15, 500)]

/-- `generate_items`: `num_items` records with keys `i + 1`, a price drawn
uniformly in the category's range and a wholesale cost at 40-70% of it. -/
def generateItems (cfg : GenConfig) (dr : Nat → ItemDraw) : List ItemRec :=
  (List.range cfg.num_items).map (fun i =>
    let t := dr i
    let range := pyChoice priceRanges (0, 0) t.categoryD
    let price := round2 (uniformQ range.1 range.2 t.priceD)
    { i_item_sk := i + 1
      i_current_price := price
      i_wholesale_cost := round2 (price * uniformQ (4/10) (7/10) t.wholesaleD) })

/-- `generate_promotions` appends one record per year in `[2020, 2021, 2022,
2023]` per entry of the six-element `promo_types` list, with
`p_promo_sk = len(promotions) + 1`, so its key pool is exactly `1..24`. -/
def generatePromotionKeys : List Nat := surrogateKeys (4 * 6)

/-- The materialized `dimension_keys` pools and the two dimension record
lists read back by the fact generators.  `generate_*` stores
`dimension_keys[name] = [r[name_sk] for r in records]`; the key pools are
kept abstract here and tied to their generators in the theorems. -/
structure Pools where
  dateDim : List DateRec
  timeKeys : List Nat
  customerKeys : List Nat
  cdemoKeys : List Nat
  hdemoKeys : List Nat
  addrKeys : List Nat
  items : List ItemRec
  stores : List StoreRec
  promoKeys : List Nat
  reasonKeys : List Nat
  webSiteKeys : List Nat
  webPageKeys : List Nat
  shipModeKeys : List Nat
  warehouseKeys : List Nat
  callCenterKeys : List Nat
  catalogPageKeys : List Nat

/-! ### synthetic_generator.py: `generate_store_sales` (lines 1603-1748) -/

/-- A `store_sales` record (all columns). -/
structure StoreSale where
  ss_sold_date_sk : Nat
  ss_sold_time_sk : Nat
  ss_item_sk : Nat
  ss_customer_sk : Nat
  ss_cdemo_sk : Nat
  ss_hdemo_sk : Nat
  ss_addr_sk : Nat
  ss_store_sk : Nat
  ss_promo_sk : Option Nat
  ss_ticket_number : Nat
  ss_quantity : Nat
  ss_wholesale_cost : ℚ
  ss_list_price : ℚ
  ss_sales_price : ℚ
  ss_ext_discount_amt : ℚ
  ss_ext_sales_price : ℚ
  ss_ext_wholesale_cost : ℚ
  ss_ext_list_price : ℚ
  ss_ext_tax : ℚ
  ss_coupon_amt : ℚ
  ss_net_paid : ℚ
  ss_net_paid_inc_tax : ℚ
  ss_net_profit : ℚ
deriving DecidableEq

/-- Entropy for one store-sales transaction. -/
structure TxnDraw where
  custD : Nat
  itemD : Nat
  timeD : Nat
  cdemoD : Nat
  hdemoD : Nat
  addrD : Nat
  qtyD : Nat
  discountHappens : Bool
  discountD : ℚ
  promoHappens : Bool
  promoD : Nat
  couponHappens : Bool
  couponD : ℚ

/-- One transaction of `generate_store_sales`.  The item is selected through
its key pool and then looked up by key; since `dimension_keys["item"]` is by
construction `[r.i_item_sk for r in items]` with distinct keys, this is the
indexed pick of the item record itself.  `ss_promo_sk` is
`random.randint(1, 300) if random.random() < 0.3 else None` — drawn from a
fixed range, not from the promotion key pool. -/
def mkStoreSale (p : Pools) (dRec : DateRec) (st : StoreRec) (ticket : Nat)
    (t : TxnDraw) : StoreSale :=
  let item := pyChoice p.items ⟨0, 0, 0⟩ t.itemD
  let list_price := item.i_current_price
  let wholesale_cost := item.i_wholesale_cost
  let quantity : Nat := pyChoice [1, 2, 3, 4, 5] 1 t.qtyD
  let discount_pct := if t.discountHappens then uniformQ 0 (3/10) t.discountD else 0
  let sales_price := round2 (list_price * (1 - discount_pct))
  let ext_sales_price := round2 (sales_price * (quantity : ℚ))
  let ext_wholesale_cost := round2 (wholesale_cost * (quantity : ℚ))
  let ext_list_price := round2 (list_price * (quantity : ℚ))
  let ext_tax := round2 (ext_sales_price * st.s_tax_precentage)
  let coupon_amt := if t.couponHappens then round2 (uniformQ 0 5 t.couponD) else 0
  let net_paid := ext_sales_price - coupon_amt
  { ss_sold_date_sk := dRec.d_date_sk
    ss_sold_time_sk := pyChoice p.timeKeys 0 t.timeD
    ss_item_sk := item.i_item_sk
    ss_customer_sk := pyChoice p.customerKeys 0 t.custD
    ss_cdemo_sk := pyChoice p.cdemoKeys 0 t.cdemoD
    ss_hdemo_sk := pyChoice p.hdemoKeys 0 t.hdemoD
    ss_addr_sk := pyChoice p.addrKeys 0 t.addrD
    ss_store_sk := st.s_store_sk
    ss_promo_sk := if t.promoHappens then some (randIntN 1 300 t.promoD) else none
    ss_ticket_number := ticket
    ss_quantity := quantity
    ss_wholesale_cost := wholesale_cost
    ss_list_price := list_price
    ss_sales_price := sales_price
    ss_ext_discount_amt := round2 ((list_price - sales_price) * (quantity : ℚ))
    ss_ext_sales_price := ext_sales_price
    ss_ext_wholesale_cost := ext_wholesale_cost
    ss_ext_list_price := ext_list_price
    ss_ext_tax := ext_tax
    ss_coupon_amt := coupon_amt
    ss_net_paid := net_paid
    ss_net_paid_inc_tax := net_paid + ext_tax
    ss_net_profit := net_paid - ext_wholesale_cost }

/-- The per-date-per-store transaction count:
`transactions_today = int(10 * seasonal_mult)` after the weekend (config
factor) and holiday (1.5) boosts, then
`max(1, int(transactions_today * floor_space / 50000))`.  The pre-boost
`seasonal_mult` is the outcome of the random category-seasonality selection
and is passed in as a rational draw. -/
def storeTxCount (cfg : GenConfig) (dRec : DateRec) (st : StoreRec)
    (seasonalDraw : ℚ) : Nat :=
  let m1 := if dRec.d_weekend then seasonalDraw * cfg.weekend_boost else seasonalDraw
  let m2 := if dRec.d_holiday then m1 * (3/2) else m1
  let txToday := pyInt (10 * m2)
  (max 1 (pyInt ((txToday : ℚ) * (st.s_floor_space : ℚ) / 50000))).toNat

/-- Entropy for one `generate_store_sales` run: the per-sampled-date seasonal
multiplier outcome and the per-transaction draws, indexed by (date index,
store index, transaction index). -/
structure SalesDraws where
  seasonal : Nat → ℚ
  txn : Nat → Nat → Nat → TxnDraw

/-- One planned transaction slot of the nested
date-loop/store-loop/transaction-loop. -/
structure SaleSlot where
  dateIdx : Nat
  storeIdx : Nat
  txnIdx : Nat
  dateRec : DateRec
  store : StoreRec

/-- `generate_store_sales`: iterate every 7th date record, per date every
store, per store `storeTxCount` transactions; stop at 100000 records (the
source appends then breaks out of all three loops once the list reaches the
cap, which yields the first 100000 slots in iteration order), assigning
`ss_ticket_number = len(store_sales) + 1` at append time. -/
def generateStoreSales (cfg : GenConfig) (p : Pools) (dr : SalesDraws) :
    List StoreSale :=
  let sampled := (p.dateDim.enum.filter (fun x => x.1 % 7 == 0)).map Prod.snd
  let slots := sampled.enum.flatMap (fun de =>
    p.stores.enum.flatMap (fun se =>
      (List.range (storeTxCount cfg de.2 se.2 (dr.seasonal de.1))).map
        (fun k => SaleSlot.mk de.1 se.1 k de.2 se.2)))
  (slots.take 100000).enum.map (fun ns =>
    mkStoreSale p ns.2.dateRec ns.2.store (ns.1 + 1)
      (dr.txn ns.2.dateIdx ns.2.storeIdx ns.2.txnIdx))

/-! ### synthetic_generator.py: `generate_web_sales` (lines 1183-1290) -/

/-- A `web_sales` record (all columns). -/
structure WebSale where
  ws_sold_date_sk : Nat
  ws_sold_time_sk : Nat
  ws_ship_date_sk : Nat
  ws_item_sk : Nat
  ws_bill_customer_sk : Nat
  ws_bill_cdemo_sk : Nat
  ws_bill_hdemo_sk : Nat
  ws_bill_addr_sk : Nat
  ws_ship_customer_sk : Nat
  ws_ship_cdemo_sk : Nat
  ws_ship_hdemo_sk : Nat
  ws_ship_addr_sk : Nat
  ws_web_page_sk : Nat
  ws_web_site_sk : Nat
  ws_ship_mode_sk : Nat
  ws_warehouse_sk : Nat
  ws_promo_sk : Option Nat
  ws_order_number : Nat
  ws_quantity : Nat
  ws_wholesale_cost : ℚ
  ws_list_price : ℚ
  ws_sales_price : ℚ
  ws_ext_discount_amt : ℚ
  ws_ext_sales_price : ℚ
  ws_ext_wholesale_cost : ℚ
  ws_ext_list_price : ℚ
  ws_ext_tax : ℚ
  ws_coupon_amt : ℚ
  ws_ext_ship_cost : ℚ
  ws_net_paid : ℚ
  ws_net_paid_inc_tax : ℚ
  ws_net_paid_inc_ship : ℚ
  ws_net_paid_inc_ship_tax : ℚ
  ws_net_profit : ℚ
deriving DecidableEq

/-- Entropy for one web-sales transaction. -/
structure WebTxnDraw where
  custD : Nat
  itemD : Nat
  dateD : Nat
  timeD : Nat
  siteD : Nat
  pageD : Nat
  bcdemoD : Nat
  bhdemoD : Nat
  baddrD : Nat
  scdemoD : Nat
  shdemoD : Nat
  saddrD : Nat
  shipModeD : Nat
  warehouseD : Nat
  qtyD : Nat
  discountD : ℚ
  shipD : ℚ
  shipDelayD : Nat
  promoHappens : Bool
  promoD : Nat

/-- One transaction of `generate_web_sales`.  `ws_promo_sk` is
`random.choice(dimension_keys["promotion"])` when drawn (pool-sourced,
unlike store sales), and `ws_ship_date_sk` is the sold date key plus
`randint(1, 7)`. -/
def mkWebSale (p : Pools) (orderNumber : Nat) (t : WebTxnDraw) : WebSale :=
  let customer_sk := pyChoice p.customerKeys 0 t.custD
  let item := pyChoice p.items ⟨0, 0, 0⟩ t.itemD
  let date_sk := pyChoice (p.dateDim.map DateRec.d_date_sk) 0 t.dateD
  let list_price := item.i_current_price
  let wholesale_cost := item.i_wholesale_cost
  let quantity : Nat := pyChoice [1, 2, 3] 1 t.qtyD
  let discount_pct := uniformQ 0 (15/100) t.discountD
  let sales_price := round2 (list_price * (1 - discount_pct))
  let ext_sales_price := round2 (sales_price * (quantity : ℚ))
  let ext_wholesale_cost := round2 (wholesale_cost * (quantity : ℚ))
  let ext_list_price := round2 (list_price * (quantity : ℚ))
  let ext_tax := round2 (ext_sales_price * (8/100))
  let shipping_cost := round2 (uniformQ 5 25 t.shipD)
  let net_paid := ext_sales_price + shipping_cost
  let net_paid_inc_tax := net_paid + ext_tax
  { ws_sold_date_sk := date_sk
    ws_sold_time_sk := pyChoice p.timeKeys 0 t.timeD
    ws_ship_date_sk := date_sk + randIntN 1 7 t.shipDelayD
    ws_item_sk := item.i_item_sk
    ws_bill_customer_sk := customer_sk
    ws_bill_cdemo_sk := pyChoice p.cdemoKeys 0 t.bcdemoD
    ws_bill_hdemo_sk := pyChoice p.hdemoKeys 0 t.bhdemoD
    ws_bill_addr_sk := pyChoice p.addrKeys 0 t.baddrD
    ws_ship_customer_sk := customer_sk
    ws_ship_cdemo_sk := pyChoice p.cdemoKeys 0 t.scdemoD
    ws_ship_hdemo_sk := pyChoice p.hdemoKeys 0 t.shdemoD
    ws_ship_addr_sk := pyChoice p.addrKeys 0 t.saddrD
    ws_web_page_sk := pyChoice p.webPageKeys 0 t.pageD
    ws_web_site_sk := pyChoice p.webSiteKeys 0 t.siteD
    ws_ship_mode_sk := pyChoice p.shipModeKeys 0 t.shipModeD
    ws_warehouse_sk := pyChoice p.warehouseKeys 0 t.warehouseD
    ws_promo_sk :=
      if t.promoHappens then some (pyChoice p.promoKeys 0 t.promoD) else none
    ws_order_number := orderNumber
    ws_quantity := quantity
    ws_wholesale_cost := wholesale_cost
    ws_list_price := list_price
    ws_sales_price := sales_price
    ws_ext_discount_amt := round2 ((list_price - sales_price) * (quantity : ℚ))
    ws_ext_sales_price := ext_sales_price
    ws_ext_wholesale_cost := ext_wholesale_cost
    ws_ext_list_price := ext_list_price
    ws_ext_tax := ext_tax
    ws_coupon_amt := 0
    ws_ext_ship_cost := shipping_cost
    ws_net_paid := net_paid
    ws_net_paid_inc_tax := net_paid_inc_tax
    ws_net_paid_inc_ship := net_paid
    ws_net_paid_inc_ship_tax := net_paid_inc_tax
    ws_net_profit := net_paid - ext_wholesale_cost - shipping_cost }

/-- `generate_web_sales`: `min(2000, len(customers) // 5)` transactions with
`ws_order_number = i + 1`. -/
def generateWebSales (p : Pools) (dr : Nat → WebTxnDraw) : List WebSale :=
  (List.range (min 2000 (p.customerKeys.length / 5))).map
    (fun i => mkWebSale p (i + 1) (dr i))

/-! ### synthetic_generator.py: `generate_catalog_sales` (lines 1292-1398) -/

/-- A `catalog_sales` record (all columns). -/
structure CatalogSale where
  cs_sold_date_sk : Nat
  cs_sold_time_sk : Option Nat
  cs_ship_date_sk : Nat
  cs_bill_customer_sk : Nat
  cs_bill_cdemo_sk : Nat
  cs_bill_hdemo_sk : Nat
  cs_bill_addr_sk : Nat
  cs_ship_customer_sk : Nat
  cs_ship_cdemo_sk : Nat
  cs_ship_hdemo_sk : Nat
  cs_ship_addr_sk : Nat
  cs_call_center_sk : Nat
  cs_catalog_page_sk : Nat
  cs_ship_mode_sk : Nat
  cs_warehouse_sk : Nat
  cs_item_sk : Nat
  cs_promo_sk : Option Nat
  cs_order_number : Nat
  cs_quantity : Nat
  cs_wholesale_cost : ℚ
  cs_list_price : ℚ
  cs_sales_price : ℚ
  cs_ext_discount_amt : ℚ
  cs_ext_sales_price : ℚ
  cs_ext_wholesale_cost : ℚ
  cs_ext_list_price : ℚ
  cs_ext_tax : ℚ
  cs_coupon_amt : ℚ
  cs_ext_ship_cost : ℚ
  cs_net_paid : ℚ
  cs_net_paid_inc_tax : ℚ
  cs_net_paid_inc_ship : ℚ
  cs_net_paid_inc_ship_tax : ℚ
  cs_net_profit : ℚ
deriving DecidableEq

/-- Entropy for one catalog-sales transaction. -/
structure CatTxnDraw where
  custD : Nat
  itemD : Nat
  dateD : Nat
  pageD : Nat
  bcdemoD : Nat
  bhdemoD : Nat
  baddrD : Nat
  scdemoD : Nat
  shdemoD : Nat
  saddrD : Nat
  callCenterD : Nat
  shipModeD : Nat
  warehouseD : Nat
  qtyD : Nat
  discountD : ℚ
  shipD : ℚ
  shipDelayD : Nat
  promoHappens : Bool
  promoD : Nat
  couponHappens : Bool
  couponD : ℚ

/-- One transaction of `generate_catalog_sales`: no sold time, ship date is
the sold date key plus `randint(3, 14)`, promotion drawn from the pool 25% of
the time, an occasional coupon, 7% tax, and shipping `uniform(8, 35)`. -/
def mkCatalogSale (p : Pools) (orderNumber : Nat) (t : CatTxnDraw) : CatalogSale :=
  let customer_sk := pyChoice p.customerKeys 0 t.custD
  let item := pyChoice p.items ⟨0, 0, 0⟩ t.itemD
  let date_sk := pyChoice (p.dateDim.map DateRec.d_date_sk) 0 t.dateD
  let list_price := item.i_current_price
  let wholesale_cost := item.i_wholesale_cost
  let quantity : Nat := pyChoice [1, 2, 3, 4] 1 t.qtyD
  let discount_pct := uniformQ 0 (20/100) t.discountD
  let sales_price := round2 (list_price * (1 - discount_pct))
  let ext_sales_price := round2 (sales_price * (quantity : ℚ))
  let ext_wholesale_cost := round2 (wholesale_cost * (quantity : ℚ))
  let ext_list_price := round2 (list_price * (quantity : ℚ))
  let ext_tax := round2 (ext_sales_price * (7/100))
  let shipping_cost := round2 (uniformQ 8 35 t.shipD)
  let net_paid := ext_sales_price + shipping_cost
  let net_paid_inc_tax := net_paid + ext_tax
  { cs_sold_date_sk := date_sk
    cs_sold_time_sk := none
    cs_ship_date_sk := date_sk + randIntN 3 14 t.shipDelayD
    cs_bill_customer_sk := customer_sk
    cs_bill_cdemo_sk := pyChoice p.cdemoKeys 0 t.bcdemoD
    cs_bill_hdemo_sk := pyChoice p.hdemoKeys 0 t.bhdemoD
    cs_bill_addr_sk := pyChoice p.addrKeys 0 t.baddrD
    cs_ship_customer_sk := customer_sk
    cs_ship_cdemo_sk := pyChoice p.cdemoKeys 0 t.scdemoD
    cs_ship_hdemo_sk := pyChoice p.hdemoKeys 0 t.shdemoD
    cs_ship_addr_sk := pyChoice p.addrKeys 0 t.saddrD
    cs_call_center_sk := pyChoice p.callCenterKeys 0 t.callCenterD
    cs_catalog_page_sk := pyChoice p.catalogPageKeys 0 t.pageD
    cs_ship_mode_sk := pyChoice p.shipModeKeys 0 t.shipModeD
    cs_warehouse_sk := pyChoice p.warehouseKeys 0 t.warehouseD
    cs_item_sk := item.i_item_sk
    cs_promo_sk :=
      if t.promoHappens then some (pyChoice p.promoKeys 0 t.promoD) else none
    cs_order_number := orderNumber
    cs_quantity := quantity
    cs_wholesale_cost := wholesale_cost
    cs_list_price := list_price
    cs_sales_price := sales_price
    cs_ext_discount_amt := round2 ((list_price - sales_price) * (quantity : ℚ))
    cs_ext_sales_price := ext_sales_price
    cs_ext_wholesale_cost := ext_wholesale_cost
    cs_ext_list_price := ext_list_price
    cs_ext_tax := ext_tax
    cs_coupon_amt := if t.couponHappens then round2 (uniformQ 0 10 t.couponD) else 0
    cs_ext_ship_cost := shipping_cost
    cs_net_paid := net_paid
    cs_net_paid_inc_tax := net_paid_inc_tax
    cs_net_paid_inc_ship := net_paid
    cs_net_paid_inc_ship_tax := net_paid_inc_tax
    cs_net_profit := net_paid - ext_wholesale_cost - shipping_cost }

/-- `generate_catalog_sales`: `min(1500, len(customers) // 10)` transactions
with `cs_order_number = i + 1`. -/
def generateCatalogSales (p : Pools) (dr : Nat → CatTxnDraw) : List CatalogSale :=
  (List.range (min 1500 (p.customerKeys.length / 10))).map
    (fun i => mkCatalogSale p (i + 1) (dr i))

/-! ### synthetic_generator.py: the three returns generators (lines 1400-1601)

`random.sample(sales, k)` selects a subset of the sales list; it is modelled
by an arbitrary index list into that list (membership in the sales list is
what every claim consumes; the sampled size `int(len(sales) * rate)` does not
constrain any claim). -/

/-- Entropy for one returns record. -/
structure RetDraw where
  dayOffD : Nat
  timeD : Nat
  reasonD : Nat
  qtyD : Nat
  feeD : ℚ

/-- A `store_returns` record (all columns). -/
structure StoreReturn where
  sr_returned_date_sk : Nat
  sr_return_time_sk : Nat
  sr_item_sk : Nat
  sr_customer_sk : Nat
  sr_cdemo_sk : Nat
  sr_hdemo_sk : Nat
  sr_addr_sk : Nat
  sr_store_sk : Nat
  sr_reason_sk : Nat
  sr_ticket_number : Nat
  sr_return_quantity : Nat
  sr_return_amt : ℚ
  sr_return_tax : ℚ
  sr_return_amt_inc_tax : ℚ
  sr_fee : ℚ
  sr_return_ship_cost : ℚ
  sr_refunded_cash : ℚ
  sr_reversed_charge : ℚ
  sr_store_credit : ℚ
  sr_net_loss : ℚ
deriving DecidableEq

/-- One record of `generate_store_returns`: return quantity
`randint(1, ss_quantity)`, the monetary fields scaled by
`return_qty / ss_quantity`, a return date key `ss_sold_date_sk +
randint(1, 30)`, and the remaining keys copied from the originating sale. -/
def mkStoreReturn (p : Pools) (s : StoreSale) (t : RetDraw) : StoreReturn :=
  let return_qty := randIntN 1 s.ss_quantity t.qtyD
  let r : ℚ := (return_qty : ℚ) / (s.ss_quantity : ℚ)
  { sr_returned_date_sk := s.ss_sold_date_sk + randIntN 1 30 t.dayOffD
    sr_return_time_sk := pyChoice p.timeKeys 0 t.timeD
    sr_item_sk := s.ss_item_sk
    sr_customer_sk := s.ss_customer_sk
    sr_cdemo_sk := s.ss_cdemo_sk
    sr_hdemo_sk := s.ss_hdemo_sk
    sr_addr_sk := s.ss_addr_sk
    sr_store_sk := s.ss_store_sk
    sr_reason_sk := pyChoice p.reasonKeys 0 t.reasonD
    sr_ticket_number := s.ss_ticket_number
    sr_return_quantity := return_qty
    sr_return_amt := round2 (s.ss_ext_sales_price * r)
    sr_return_tax := round2 (s.ss_ext_tax * r)
    sr_return_amt_inc_tax := round2 ((s.ss_ext_sales_price + s.ss_ext_tax) * r)
    sr_fee := round2 (uniformQ 0 5 t.feeD)
    sr_return_ship_cost := 0
    sr_refunded_cash := round2 (s.ss_ext_sales_price * r * (8/10))
    sr_reversed_charge := round2 (s.ss_ext_sales_price * r * (2/10))
    sr_store_credit := round2 (s.ss_ext_sales_price * r * (1/10))
    sr_net_loss := round2 (s.ss_net_profit * r) }

/-- `generate_store_returns`: one record per sampled sale. -/
def generateStoreReturns (p : Pools) (sales : List StoreSale)
    (sampleIdx : List Nat) (dr : Nat → RetDraw) : List StoreReturn :=
  ((sampleIdx.filterMap (fun j => sales[j]?)).enum).map
    (fun is => mkStoreReturn p is.2 (dr is.1))

/-- A `web_returns` record (all columns). -/
structure WebReturn where
  wr_returned_date_sk : Nat
  wr_returned_time_sk : Nat
  wr_item_sk : Nat
  wr_refunded_customer_sk : Nat
  wr_refunded_cdemo_sk : Nat
  wr_refunded_hdemo_sk : Nat
  wr_refunded_addr_sk : Nat
  wr_returning_customer_sk : Nat
  wr_returning_cdemo_sk : Nat
  wr_returning_hdemo_sk : Nat
  wr_returning_addr_sk : Nat
  wr_web_page_sk : Nat
  wr_reason_sk : Nat
  wr_order_number : Nat
  wr_return_quantity : Nat
  wr_return_amt : ℚ
  wr_return_tax : ℚ
  wr_return_amt_inc_tax : ℚ
  wr_fee : ℚ
  wr_return_ship_cost : ℚ
  wr_refunded_cash : ℚ
  wr_reversed_charge : ℚ
  wr_account_credit : ℚ
  wr_net_loss : ℚ
deriving DecidableEq

/-- One record of `generate_web_returns`: return quantity
`randint(1, ws_quantity)`, monetary fields (including the shipping cost)
scaled by the return ratio, and a return date key `ws_sold_date_sk +
randint(1, 45)`. -/
def mkWebReturn (p : Pools) (s : WebSale) (t : RetDraw) : WebReturn :=
  let return_qty := randIntN 1 s.ws_quantity t.qtyD
  let r : ℚ := (return_qty : ℚ) / (s.ws_quantity : ℚ)
  { wr_returned_date_sk := s.ws_sold_date_sk + randIntN 1 45 t.dayOffD
    wr_returned_time_sk := pyChoice p.timeKeys 0 t.timeD
    wr_item_sk := s.ws_item_sk
    wr_refunded_customer_sk := s.ws_bill_customer_sk
    wr_refunded_cdemo_sk := s.ws_bill_cdemo_sk
    wr_refunded_hdemo_sk := s.ws_bill_hdemo_sk
    wr_refunded_addr_sk := s.ws_bill_addr_sk
    wr_returning_customer_sk := s.ws_ship_customer_sk
    wr_returning_cdemo_sk := s.ws_ship_cdemo_sk
    wr_returning_hdemo_sk := s.ws_ship_hdemo_sk
    wr_returning_addr_sk := s.ws_ship_addr_sk
    wr_web_page_sk := s.ws_web_page_sk
    wr_reason_sk := pyChoice p.reasonKeys 0 t.reasonD
    wr_order_number := s.ws_order_number
    wr_return_quantity := return_qty
    wr_return_amt := round2 (s.ws_ext_sales_price * r)
    wr_return_tax := round2 (s.ws_ext_tax * r)
    wr_return_amt_inc_tax := round2 ((s.ws_ext_sales_price + s.ws_ext_tax) * r)
    wr_fee := round2 (uniformQ 2 8 t.feeD)
    wr_return_ship_cost := round2 (s.ws_ext_ship_cost * r)
    wr_refunded_cash := round2 (s.ws_ext_sales_price * r * (9/10))
    wr_reversed_charge := round2 (s.ws_ext_sales_price * r * (1/10))
    wr_account_credit := round2 (s.ws_ext_sales_price * r * (5/100))
    wr_net_loss := round2 (s.ws_net_profit * r) }

/-- `generate_web_returns`: one record per sampled sale. -/
def generateWebReturns (p : Pools) (sales : List WebSale)
    (sampleIdx : List Nat) (dr : Nat → RetDraw) : List WebReturn :=
  ((sampleIdx.filterMap (fun j => sales[j]?)).enum).map
    (fun is => mkWebReturn p is.2 (dr is.1))

/-- A `catalog_returns` record (all columns). -/
structure CatalogReturn where
  cr_returned_date_sk : Nat
  cr_returned_time_sk : Option Nat
  cr_item_sk : Nat
  cr_refunded_customer_sk : Nat
  cr_refunded_cdemo_sk : Nat
  cr_refunded_hdemo_sk : Nat
  cr_refunded_addr_sk : Nat
  cr_returning_customer_sk : Nat
  cr_returning_cdemo_sk : Nat
  cr_returning_hdemo_sk : Nat
  cr_returning_addr_sk : Nat
  cr_call_center_sk : Nat
  cr_catalog_page_sk : Nat
  cr_ship_mode_sk : Nat
  cr_warehouse_sk : Nat
  cr_reason_sk : Nat
  cr_order_number : Nat
  cr_return_quantity : Nat
  cr_return_amount : ℚ
  cr_return_tax : ℚ
  cr_return_amt_inc_tax : ℚ
  cr_fee : ℚ
  cr_return_ship_cost : ℚ
  cr_refunded_cash : ℚ
  cr_reversed_charge : ℚ
  cr_store_credit : ℚ
  cr_net_loss : ℚ
deriving DecidableEq

/-- One record of `generate_catalog_returns`: return quantity
`randint(1, cs_quantity)`, monetary fields (including the shipping cost)
scaled by the return ratio, a return date key `cs_sold_date_sk +
randint(1, 60)`, and no return time. -/
def mkCatalogReturn (p : Pools) (s : CatalogSale) (t : RetDraw) : CatalogReturn :=
  let return_qty := randIntN 1 s.cs_quantity t.qtyD
  let r : ℚ := (return_qty : ℚ) / (s.cs_quantity : ℚ)
  { cr_returned_date_sk := s.cs_sold_date_sk + randIntN 1 60 t.dayOffD
    cr_returned_time_sk := none
    cr_item_sk := s.cs_item_sk
    cr_refunded_customer_sk := s.cs_bill_customer_sk
    cr_refunded_cdemo_sk := s.cs_bill_cdemo_sk
    cr_refunded_hdemo_sk := s.cs_bill_hdemo_sk
    cr_refunded_addr_sk := s.cs_bill_addr_sk
    cr_returning_customer_sk := s.cs_ship_customer_sk
    cr_returning_cdemo_sk := s.cs_ship_cdemo_sk
    cr_returning_hdemo_sk := s.cs_ship_hdemo_sk
    cr_returning_addr_sk := s.cs_ship_addr_sk
    cr_call_center_sk := s.cs_call_center_sk
    cr_catalog_page_sk := s.cs_catalog_page_sk
    cr_ship_mode_sk := s.cs_ship_mode_sk
    cr_warehouse_sk := s.cs_warehouse_sk
    cr_reason_sk := pyChoice p.reasonKeys 0 t.reasonD
    cr_order_number := s.cs_order_number
    cr_return_quantity := return_qty
    cr_return_amount := round2 (s.cs_ext_sales_price * r)
    cr_return_tax := round2 (s.cs_ext_tax * r)
    cr_return_amt_inc_tax := round2 ((s.cs_ext_sales_price + s.cs_ext_tax) * r)
    cr_fee := round2 (uniformQ 3 10 t.feeD)
    cr_return_ship_cost := round2 (s.cs_ext_ship_cost * r)
    cr_refunded_cash := round2 (s.cs_ext_sales_price * r * (85/100))
    cr_reversed_charge := round2 (s.cs_ext_sales_price * r * (15/100))
    cr_store_credit := round2 (s.cs_ext_sales_price * r * (1/10))
    cr_net_loss := round2 (s.cs_net_profit * r) }

/-- `generate_catalog_returns`: one record per sampled sale. -/
def generateCatalogReturns (p : Pools) (sales : List CatalogSale)
    (sampleIdx : List Nat) (dr : Nat → RetDraw) : List CatalogReturn :=
  ((sampleIdx.filterMap (fun j => sales[j]?)).enum).map
    (fun is => mkCatalogReturn p is.2 (dr is.1))

/-! ## Concrete instances used to witness the hypothesis-bearing theorems -/

/-- An all-zero entropy record for one store-sales transaction. -/
def witTxnDraw : TxnDraw :=
  { custD := 0, itemD := 0, timeD := 0, cdemoD := 0, hdemoD := 0, addrD := 0
    qtyD := 0, discountHappens := false, discountD := 0, promoHappens := false
    promoD := 0, couponHappens := false, couponD := 0 }

/-- An all-zero entropy record for one web-sales transaction. -/
def witWebDraw : WebTxnDraw :=
  { custD := 0, itemD := 0, dateD := 0, timeD := 0, siteD := 0, pageD := 0
    bcdemoD := 0, bhdemoD := 0, baddrD := 0, scdemoD := 0, shdemoD := 0
    saddrD := 0, shipModeD := 0, warehouseD := 0, qtyD := 0, discountD := 0
    shipD := 0, shipDelayD := 0, promoHappens := false, promoD := 0 }

/-- An all-zero entropy record for one catalog-sales transaction. -/
def witCatDraw : CatTxnDraw :=
  { custD := 0, itemD := 0, dateD := 0, pageD := 0, bcdemoD := 0, bhdemoD := 0
    baddrD := 0, scdemoD := 0, shdemoD := 0, saddrD := 0, callCenterD := 0
    shipModeD := 0, warehouseD := 0, qtyD := 0, discountD := 0, shipD := 0
    shipDelayD := 0, promoHappens := false, promoD := 0, couponHappens := false
    couponD := 0 }

/-- An all-zero entropy record for one returns record. -/
def witRetDraw : RetDraw :=
  { dayOffD := 0, timeD := 0, reasonD := 0, qtyD := 0, feeD := 0 }

/-- Constant-entropy draws for a `generate_store_sales` run. -/
def witSalesDraws : SalesDraws := ⟨fun _ => 1, fun _ _ _ => witTxnDraw⟩

/-- Materialized pools of a small run: the scale-0 date dimension, stores and
items from their generators under zero draws, the full-mode promotion pool
`1..24`, and surrogate-key pools of the sizes the dimension generators
produce (time 96, reason 12, ship modes 5, call centers 4, catalog pages 12,
web pages 30; the remaining counts come from the scale-0 configuration). -/
def witPools : Pools :=
  { dateDim := generateDateDimension testConfig
    timeKeys := surrogateKeys 96
    customerKeys := surrogateKeys 5
    cdemoKeys := surrogateKeys 100
    hdemoKeys := surrogateKeys 72
    addrKeys := surrogateKeys 4
    items := generateItems testConfig (fun _ => ⟨0, 0, 0⟩)
    stores := generateStores testConfig (fun _ => ⟨0, 0, 0⟩)
    promoKeys := generatePromotionKeys
    reasonKeys := surrogateKeys 12
    webSiteKeys := surrogateKeys 1
    webPageKeys := surrogateKeys 30
    shipModeKeys := surrogateKeys 5
    warehouseKeys := surrogateKeys 1
    callCenterKeys := surrogateKeys 4
    catalogPageKeys := surrogateKeys 12 }

/-- A fixed store-sales record with quantity 2 (money fields zeroed; only the
quantity matters to the hypotheses it witnesses). -/
def witStoreSale : StoreSale :=
  { ss_sold_date_sk := 1, ss_sold_time_sk := 1, ss_item_sk := 1
    ss_customer_sk := 1, ss_cdemo_sk := 1, ss_hdemo_sk := 1, ss_addr_sk := 1
    ss_store_sk := 1, ss_promo_sk := none, ss_ticket_number := 1
    ss_quantity := 2, ss_wholesale_cost := 0, ss_list_price := 0
    ss_sales_price := 0, ss_ext_discount_amt := 0, ss_ext_sales_price := 0
    ss_ext_wholesale_cost := 0, ss_ext_list_price := 0, ss_ext_tax := 0
    ss_coupon_amt := 0, ss_net_paid := 0, ss_net_paid_inc_tax := 0
    ss_net_profit := 0 }

/-- A fixed web-sales record with quantity 3. -/
def witWebSale : WebSale :=
  { ws_sold_date_sk := 1, ws_sold_time_sk := 1, ws_ship_date_sk := 2
    ws_item_sk := 1, ws_bill_customer_sk := 1, ws_bill_cdemo_sk := 1
    ws_bill_hdemo_sk := 1, ws_bill_addr_sk := 1, ws_ship_customer_sk := 1
    ws_ship_cdemo_sk := 1, ws_ship_hdemo_sk := 1, ws_ship_addr_sk := 1
    ws_web_page_sk := 1, ws_web_site_sk := 1, ws_ship_mode_sk := 1
    ws_warehouse_sk := 1, ws_promo_sk := none, ws_order_number := 1
    ws_quantity := 3, ws_wholesale_cost := 0, ws_list_price := 0
    ws_sales_price := 0, ws_ext_discount_amt := 0, ws_ext_sales_price := 0
    ws_ext_wholesale_cost := 0, ws_ext_list_price := 0, ws_ext_tax := 0
    ws_coupon_amt := 0, ws_ext_ship_cost := 0, ws_net_paid := 0
    ws_net_paid_inc_tax := 0, ws_net_paid_inc_ship := 0
    ws_net_paid_inc_ship_tax := 0, ws_net_profit := 0 }

/-- A fixed catalog-sales record with quantity 4. -/
def witCatalogSale : CatalogSale :=
  { cs_sold_date_sk := 1, cs_sold_time_sk := none, cs_ship_date_sk := 4
    cs_bill_customer_sk := 1, cs_bill_cdemo_sk := 1, cs_bill_hdemo_sk := 1
    cs_bill_addr_sk := 1, cs_ship_customer_sk := 1, cs_ship_cdemo_sk := 1
    cs_ship_hdemo_sk := 1, cs_ship_addr_sk := 1, cs_call_center_sk := 1
    cs_catalog_page_sk := 1, cs_ship_mode_sk := 1, cs_warehouse_sk := 1
    cs_item_sk := 1, cs_promo_sk := none, cs_order_number := 1
    cs_quantity := 4, cs_wholesale_cost := 0, cs_list_price := 0
    cs_sales_price := 0, cs_ext_discount_amt := 0, cs_ext_sales_price := 0
    cs_ext_wholesale_cost := 0, cs_ext_list_price := 0, cs_ext_tax := 0
    cs_coupon_amt := 0, cs_ext_ship_cost := 0, cs_net_paid := 0
    cs_net_paid_inc_tax := 0, cs_net_paid_inc_ship := 0
    cs_net_paid_inc_ship_tax := 0, cs_net_profit := 0 }

/-! ## Concrete run refuting the original referential-integrity claim -/

/-- A one-day generation window (2023-01-03, a Tuesday: neither a weekend nor
a holiday), otherwise the scale-0 configuration. -/
def cexConfig : GenConfig :=
  { testConfig with start_date := ⟨2023, 1, 3⟩, end_date := ⟨2023, 1, 3⟩ }

/-- The single date record `generate_date_dimension` produces under
`cexConfig` (equality proved in `cexDateDim_eq`). -/
def cexDateRec : DateRec :=
  { d_date_sk := 1, d_date := ⟨2023, 1, 3⟩, d_moy := 1, d_weekend := false
    d_holiday := false }

/-- The single store of the run: a Specialty Store whose floor-space jitter
draw is 5000, i.e. `15000 + randint(-5000, 5000) = 15000` exactly (key and
floor space proved against `generate_stores` in `cexStore_eq`); the tax rate
is any in-range value — it is never forced by the refuted fields. -/
def cexStore : StoreRec :=
  { s_store_sk := 1, s_floor_space := 15000, s_tax_precentage := 7/100 }

/-- Transaction entropy whose promotion draw happens with `randint(1, 300)`
entropy 24, producing `ss_promo_sk = 25`. -/
def cexTxnDraw : TxnDraw :=
  { witTxnDraw with promoHappens := true, promoD := 24 }

/-- Constant draws for the refuting store-sales run (seasonal multiplier 1.0,
the no-category-selected outcome). -/
def cexDraws : SalesDraws := ⟨fun _ => 1, fun _ _ _ => cexTxnDraw⟩

/-- The materialized pools of the refuting run: the one-day date dimension,
the single store, one item, the full-mode promotion pool `1..24`, and
generator-sized surrogate pools. -/
def cexPools : Pools :=
  { dateDim := [cexDateRec]
    timeKeys := surrogateKeys 96
    customerKeys := surrogateKeys 5
    cdemoKeys := surrogateKeys 100
    hdemoKeys := surrogateKeys 72
    addrKeys := surrogateKeys 4
    items := [⟨1, 20, 10⟩]
    stores := [cexStore]
    promoKeys := generatePromotionKeys
    reasonKeys := surrogateKeys 12
    webSiteKeys := surrogateKeys 1
    webPageKeys := surrogateKeys 30
    shipModeKeys := surrogateKeys 5
    warehouseKeys := surrogateKeys 1
    callCenterKeys := surrogateKeys 4
    catalogPageKeys := surrogateKeys 12 }

/-- A file environment where the file exists, the connection succeeds, and
every statement fails. -/
def witEnvSql : SqlFileEnv :=
  { fileContent := some "CREATE TABLE T (X NUMBER);\nDROP TABLE T;\n"
    connOk := true
    stmtFails := fun _ => true }

/-- A load environment with two discovered tables that both load. -/
def witEnvLoad : LoadDataEnv :=
  { foundFiles := ["date_dim", "store"]
    connOk := true
    tableLoadOk := fun _ => true }

/-- A table-load environment for an existing one-column table whose data file
contains only blank lines. -/
def witEnvTable : TableLoadEnv :=
  { columns := [("SS_SOLD_DATE_SK", "NUMBER")]
    catalogOk := true
    fileLines := ["", "   "]
    rowOk := fun _ => true }

/-- A load environment whose single discovered table fails to load. -/
def witEnvLoadFail : LoadDataEnv :=
  { foundFiles := ["item"]
    connOk := true
    tableLoadOk := fun _ => false }

/-! ## Basic lemmas about the random primitives and rounding -/

theorem pyChoice_mem {α : Type} {l : List α} (dflt : α) (d : Nat) (h : l ≠ []) :
    pyChoice l dflt d ∈ l := by
  have hlen : 0 < l.length := List.length_pos.mpr h
  have hlt : d % l.length < l.length := Nat.mod_lt _ hlen
  rw [pyChoice, List.getD_eq_getElem l dflt hlt]
  exact List.getElem_mem hlt

theorem le_randIntN (lo hi d : Nat) : lo ≤ randIntN lo hi d :=
  Nat.le_add_right _ _

theorem randIntN_le {lo hi : Nat} (d : Nat) (h : lo ≤ hi) :
    randIntN lo hi d ≤ hi := by
  unfold randIntN
  have hm : d % (hi + 1 - lo) < hi + 1 - lo := Nat.mod_lt _ (by omega)
  omega

theorem halfEven_abs (q : ℚ) : |((halfEven q : ℤ) : ℚ) - q| ≤ 1/2 := by
  have h1 : ((⌊q⌋ : ℤ) : ℚ) ≤ q := Int.floor_le q
  have h2 : q < ((⌊q⌋ : ℤ) : ℚ) + 1 := Int.lt_floor_add_one q
  unfold halfEven
  split_ifs with hc1 hc2 hc3
  · rw [abs_le]; constructor <;> linarith
  · rw [abs_le]; push_cast; constructor <;> linarith
  · rw [abs_le]; constructor <;> linarith
  · rw [abs_le]; push_cast; constructor <;> linarith

theorem roundTo2_abs (q : ℚ) : |roundTo 2 q - q| ≤ 1/200 := by
  unfold roundTo
  have h := halfEven_abs (q * 10 ^ 2)
  have heq : ((halfEven (q * 10 ^ 2) : ℤ) : ℚ) / 10 ^ 2 - q =
      (((halfEven (q * 10 ^ 2) : ℤ) : ℚ) - q * 10 ^ 2) / 10 ^ 2 := by ring
  rw [heq, abs_div]
  rw [show |((10 : ℚ) ^ 2)| = 100 by norm_num]
  linarith

theorem round2_abs (q : ℚ) : |round2 q - q| ≤ 1/200 := roundTo2_abs q

/-! ## Membership structure of the generated fact lists -/

theorem mem_of_mem_enum {α : Type} {l : List α} {x : Nat × α}
    (h : x ∈ l.enum) : x.2 ∈ l := by
  rw [List.mem_enum_iff_getElem?] at h
  exact List.getElem?_mem h

/-- Every record of `generate_store_sales` is `mkStoreSale` applied to a date
record of the date dimension and a store record of the store list. -/
theorem mem_generateStoreSales {cfg : GenConfig} {p : Pools} {dr : SalesDraws}
    {r : StoreSale} (h : r ∈ generateStoreSales cfg p dr) :
    ∃ dRec ∈ p.dateDim, ∃ st ∈ p.stores, ∃ (n di si k : Nat),
      r = mkStoreSale p dRec st n (dr.txn di si k) := by
  unfold generateStoreSales at h
  simp only [List.mem_map] at h
  obtain ⟨⟨n, slot⟩, hmem, rfl⟩ := h
  have hslot : slot ∈
      ((p.dateDim.enum.filter (fun x => x.1 % 7 == 0)).map Prod.snd).enum.flatMap
        (fun de => p.stores.enum.flatMap (fun se =>
          (List.range (storeTxCount cfg de.2 se.2 (dr.seasonal de.1))).map
            (fun k => SaleSlot.mk de.1 se.1 k de.2 se.2))) := by
    have := mem_of_mem_enum hmem
    exact List.mem_of_mem_take this
  simp only [List.mem_flatMap, List.mem_map] at hslot
  obtain ⟨de, hde, se, hse, k, _, rfl⟩ := hslot
  have hdate : de.2 ∈ p.dateDim := by
    have h1 := mem_of_mem_enum hde
    simp only [List.mem_map] at h1
    obtain ⟨pr, hpr, hpr2⟩ := h1
    rw [← hpr2]
    exact mem_of_mem_enum (List.mem_of_mem_filter hpr)
  exact ⟨de.2, hdate, se.2, mem_of_mem_enum hse, n + 1, de.1, se.1, k, rfl⟩

/-- Every record of `generate_web_sales` is `mkWebSale` for some index. -/
theorem mem_generateWebSales {p : Pools} {dr : Nat → WebTxnDraw} {r : WebSale}
    (h : r ∈ generateWebSales p dr) :
    ∃ (n : Nat) (t : WebTxnDraw), r = mkWebSale p n t := by
  unfold generateWebSales at h
  simp only [List.mem_map] at h
  obtain ⟨i, _, rfl⟩ := h
  exact ⟨i + 1, dr i, rfl⟩

/-- Every record of `generate_catalog_sales` is `mkCatalogSale` for some
index. -/
theorem mem_generateCatalogSales {p : Pools} {dr : Nat → CatTxnDraw}
    {r : CatalogSale} (h : r ∈ generateCatalogSales p dr) :
    ∃ (n : Nat) (t : CatTxnDraw), r = mkCatalogSale p n t := by
  unfold generateCatalogSales at h
  simp only [List.mem_map] at h
  obtain ⟨i, _, rfl⟩ := h
  exact ⟨i + 1, dr i, rfl⟩

/-- Every record of `generate_store_returns` originates from a sampled sale
of the sales list. -/
theorem mem_generateStoreReturns {p : Pools} {sales : List StoreSale}
    {idx : List Nat} {dr : Nat → RetDraw} {r : StoreReturn}
    (h : r ∈ generateStoreReturns p sales idx dr) :
    ∃ s ∈ sales, ∃ t : RetDraw, r = mkStoreReturn p s t := by
  unfold generateStoreReturns at h
  simp only [List.mem_map] at h
  obtain ⟨⟨i, s⟩, hmem, rfl⟩ := h
  have hs : s ∈ idx.filterMap (fun j => sales[j]?) := mem_of_mem_enum hmem
  rw [List.mem_filterMap] at hs
  obtain ⟨j, _, hj⟩ := hs
  exact ⟨s, List.getElem?_mem hj, dr i, rfl⟩

/-- Every record of `generate_web_returns` originates from a sampled sale. -/
theorem mem_generateWebReturns {p : Pools} {sales : List WebSale}
    {idx : List Nat} {dr : Nat → RetDraw} {r : WebReturn}
    (h : r ∈ generateWebReturns p sales idx dr) :
    ∃ s ∈ sales, ∃ t : RetDraw, r = mkWebReturn p s t := by
  unfold generateWebReturns at h
  simp only [List.mem_map] at h
  obtain ⟨⟨i, s⟩, hmem, rfl⟩ := h
  have hs : s ∈ idx.filterMap (fun j => sales[j]?) := mem_of_mem_enum hmem
  rw [List.mem_filterMap] at hs
  obtain ⟨j, _, hj⟩ := hs
  exact ⟨s, List.getElem?_mem hj, dr i, rfl⟩

/-- Every record of `generate_catalog_returns` originates from a sampled
sale. -/
theorem mem_generateCatalogReturns {p : Pools} {sales : List CatalogSale}
    {idx : List Nat} {dr : Nat → RetDraw} {r : CatalogReturn}
    (h : r ∈ generateCatalogReturns p sales idx dr) :
    ∃ s ∈ sales, ∃ t : RetDraw, r = mkCatalogReturn p s t := by
  unfold generateCatalogReturns at h
  simp only [List.mem_map] at h
  obtain ⟨⟨i, s⟩, hmem, rfl⟩ := h
  have hs : s ∈ idx.filterMap (fun j => sales[j]?) := mem_of_mem_enum hmem
  rw [List.mem_filterMap] at hs
  obtain ⟨j, _, hj⟩ := hs
  exact ⟨s, List.getElem?_mem hj, dr i, rfl⟩

/-! ## Claim theorems -/

/-- C5: Splitting the script `"CREATE TABLE T (X NUMBER);\nBEGIN\n  NULL;\nEND;\n/\n"`
yields exactly two ordered statements: first the CREATE TABLE statement with
its terminating semicolon stripped, then the BEGIN…END block (its internal
semicolons kept, each accumulated line stripped of indentation) without its
trailing `/`. -/
theorem C5_split_concrete_script :
    splitSqlStatements "CREATE TABLE T (X NUMBER);\nBEGIN\n  NULL;\nEND;\n/\n" =
      ["CREATE TABLE T (X NUMBER)", "BEGIN\nNULL;\nEND;"] := by decide

/-- C6 counterexample: rewriting `"CREATE TABLE ITEM (...)"` for target
schema `SALES` does qualify the table reference, but the replacement text is
the lowercase f-string `"create table SALES.ITEM"`, so the output is NOT the
claimed `"CREATE TABLE SALES.ITEM (...)"` — the original keywords' casing is
not preserved. -/
theorem C6_counterexample :
    qualifySqlForSchema "CREATE TABLE ITEM (...)" "SALES" =
      "create table SALES.ITEM (...)" ∧
    qualifySqlForSchema "CREATE TABLE ITEM (...)" "SALES" ≠
      "CREATE TABLE SALES.ITEM (...)" := by decide

/-- C6 (amended): rewriting `"CREATE TABLE ITEM (...)"` for target schema
`SALES` yields `"create table SALES.ITEM (...)"` — the known table reference
becomes schema-qualified, with the rewritten CREATE TABLE keywords normalized
to lowercase — and rewriting any script with an empty target schema returns
the input text unchanged. -/
theorem C6_schema_qualification :
    qualifySqlForSchema "CREATE TABLE ITEM (...)" "SALES" =
      "create table SALES.ITEM (...)" ∧
    ∀ s : String, qualifySqlForSchema s "" = s :=
  ⟨by decide, fun s => by simp [qualifySqlForSchema]⟩

/-- C7 counterexample: the DATE-column check of `_load_table_direct` is only
`len(v) == 10 and v.count("-") == 2`, not strict `YYYY-MM-DD`: the value
`"ABCD-EF-GH"` is not a date at all, yet it passes through instead of
coercing to NULL as the claim states. -/
theorem C7_counterexample :
    coerceField "DATE" "ABCD-EF-GH".toList = SqlValue.vStr "ABCD-EF-GH" ∧
    coerceField "DATE" "ABCD-EF-GH".toList ≠ SqlValue.vNull := by decide

/-- C7 (amended): coercing the row `"abc|2024-01-15||42.5"` against columns
typed (STRING, DATE, NUMBER, NUMBER) yields `("abc", "2024-01-15", NULL,
42.5)`; in general each empty field coerces to NULL, a DATE field passes
through iff it has length 10 and exactly two `-` characters (a shape check,
not strict `YYYY-MM-DD` validation) and coerces to NULL otherwise, a NUMBER
field parses as decimal iff it contains a `.` separator and as int otherwise
(NULL on parse failure), and fields of other types pass through as
strings. -/
theorem C7_field_coercion :
    processLine ["VARCHAR2", "DATE", "NUMBER", "NUMBER"]
        "abc|2024-01-15||42.5".toList =
      [SqlValue.vStr "abc", SqlValue.vStr "2024-01-15", SqlValue.vNull,
        SqlValue.vDec (85/2)] ∧
    (∀ t : String, coerceField t [] = SqlValue.vNull) ∧
    (∀ v : List Char,
      coerceField "DATE" v =
        if v.length = 10 ∧ v.countP (fun c => c = '-') = 2 then
          SqlValue.vStr (String.mk v)
        else SqlValue.vNull) ∧
    coerceField "NUMBER" "42".toList = SqlValue.vInt 42 ∧
    coerceField "NUMBER" "42.5".toList = SqlValue.vDec (85/2) ∧
    coerceField "NUMBER" "4x".toList = SqlValue.vNull ∧
    coerceField "NUMBER" "4.x".toList = SqlValue.vNull ∧
    (∀ (t : String) (v : List Char), v ≠ [] → t ≠ "DATE" → t ≠ "NUMBER" →
      coerceField t v = SqlValue.vStr (String.mk v)) := by
  refine ⟨?_, ?_, ?_, ?_, ?_, by decide, by decide, ?_⟩
  · have h : processLine ["VARCHAR2", "DATE", "NUMBER", "NUMBER"]
        "abc|2024-01-15||42.5".toList =
        [SqlValue.vStr "abc", SqlValue.vStr "2024-01-15", SqlValue.vNull,
          SqlValue.vDec (425/10)] := by
      simp [processLine, trimL, splitOnChar, dropTrailingEmpties,
        padTruncate, coerceField, parseDecL, parseDecCore, parseNatL,
        digitsVal, parseIntL]
    rw [h]
    norm_num
  · intro t
    simp [coerceField]
  · intro v
    by_cases hv : v.isEmpty
    · rw [List.isEmpty_iff] at hv
      subst hv
      simp [coerceField]
    · simp only [coerceField, hv, Bool.false_eq_true, if_false, if_true,
        reduceIte]
      split_ifs with h1 h2 h2 <;> first
        | rfl
        | (exfalso; simp_all)
  · decide
  · have h : coerceField "NUMBER" "42.5".toList = SqlValue.vDec (425/10) := by
      simp [coerceField, parseDecL, parseDecCore, parseNatL, digitsVal]
    rw [h]
    norm_num
  · intro t v hv ht1 ht2
    simp [coerceField, hv, ht1, ht2]

/-- C7 witness for the hypothesis-bearing conjunct: a non-empty value of a
non-DATE non-NUMBER column passes through as a string. -/
theorem C7_witness :
    ("hi".toList ≠ ([] : List Char)) ∧ ("VARCHAR2" ≠ "DATE") ∧
    ("VARCHAR2" ≠ "NUMBER") ∧
    coerceField "VARCHAR2" "hi".toList = SqlValue.vStr (String.mk "hi".toList) :=
  ⟨by decide, by decide, by decide,
    C7_field_coercion.2.2.2.2.2.2.2 "VARCHAR2" "hi".toList (by decide)
      (by decide) (by decide)⟩

/-- C3: for every SQL script whose file exists and for which a connection is
obtained, `execute_sql_file` returns True regardless of how many individual
statements fail; it returns False only when the file is missing or the whole
pass raises (e.g. the connection cannot be obtained) — the boolean reflects
completion of the run, not per-statement success. -/
theorem C3_executeSqlFile_completion (env : SqlFileEnv) (ts : Option String) :
    (∀ c, env.fileContent = some c → env.connOk = true →
      (executeSqlFile env ts).1 = true) ∧
    (env.fileContent = none → (executeSqlFile env ts).1 = false) ∧
    (env.connOk = false → (executeSqlFile env ts).1 = false) := by
  refine ⟨?_, ?_, ?_⟩
  · intro c hc hconn
    simp [executeSqlFile, hc, hconn]
  · intro hc
    simp [executeSqlFile, hc]
  · intro hconn
    cases hc : env.fileContent <;> simp [executeSqlFile, hc, hconn]

/-- C3 witness: a run whose every statement fails still returns True. -/
theorem C3_witness :
    witEnvSql.fileContent = some "CREATE TABLE T (X NUMBER);\nDROP TABLE T;\n" ∧
    witEnvSql.connOk = true ∧
    (executeSqlFile witEnvSql none).1 = true :=
  ⟨rfl, rfl, (C3_executeSqlFile_completion witEnvSql none).1 _ rfl rfl⟩

/-- C4: `load_data` returns False immediately when no per-table data files
are discovered, when the requested single table has no file, or when the
connectivity probe fails; otherwise it returns True iff every selected
table's per-table load reports success. -/
theorem C4_loadData_result (env : LoadDataEnv) (table : Option String) :
    (env.foundFiles = [] → loadData env table = false) ∧
    (∀ t, table = some t → t ∉ env.foundFiles → loadData env table = false) ∧
    (env.connOk = false → loadData env table = false) ∧
    (env.foundFiles ≠ [] → env.connOk = true →
      ((loadData env none = true ↔
          ∀ t ∈ env.foundFiles, env.tableLoadOk t = true) ∧
        ∀ t ∈ env.foundFiles,
          (loadData env (some t) = true ↔ env.tableLoadOk t = true))) := by
  refine ⟨?_, ?_, ?_, ?_⟩
  · intro h
    simp [loadData, h]
  · intro t ht hmem
    subst ht
    by_cases hz : env.foundFiles = []
    · simp [loadData, hz]
    · simp [loadData, hz, hmem]
  · intro hconn
    by_cases hz : env.foundFiles = []
    · simp [loadData, hz]
    · cases table with
      | none => simp [loadData, hz, hconn]
      | some t =>
        by_cases hmem : t ∈ env.foundFiles <;>
          simp [loadData, hz, hconn, hmem]
  · intro hz hconn
    constructor
    · simp only [loadData, hz, List.isEmpty_iff, if_false, hconn,
        Bool.not_true, beq_iff_eq]
      simpa using List.countP_eq_length
    · intro t hmem
      cases h : env.tableLoadOk t <;>
        simp [loadData, hz, hconn, hmem, h, List.countP_cons, List.countP_nil]

/-- C4 witness: two discovered tables, both loading successfully, and the
success-iff-all-tables-succeed equivalence at that input. -/
theorem C4_witness :
    witEnvLoad.foundFiles ≠ [] ∧ witEnvLoad.connOk = true ∧
    ((loadData witEnvLoad none = true ↔
        ∀ t ∈ witEnvLoad.foundFiles, witEnvLoad.tableLoadOk t = true) ∧
      ∀ t ∈ witEnvLoad.foundFiles,
        (loadData witEnvLoad (some t) = true ↔
          witEnvLoad.tableLoadOk t = true)) :=
  ⟨by decide, rfl, (C4_loadData_result witEnvLoad none).2.2.2 (by decide) rfl⟩

theorem chunksOfGo_nil {α : Type} (n fuel : Nat) :
    chunksOfGo n fuel ([] : List α) = [] := by
  cases fuel <;> rfl

/-- C8: when a full 1000-row batch insert fails because exactly one row
violates a constraint, the row-by-row retry skips only the violating row and
exactly the other 999 rows of that batch are inserted — not zero. -/
theorem C8_batch_row_fallback {α : Type} (rowOk : α → Bool) (batch : List α)
    (hlen : batch.length = 1000)
    (hbad : batch.countP (fun r => !(rowOk r)) = 1) :
    rowsInserted rowOk batch = 999 := by
  have hne : batch ≠ [] := by
    intro h
    subst h
    simp at hlen
  obtain ⟨b, bs, rfl⟩ := List.exists_cons_of_ne_nil hne
  have h1 : List.take 1000 (b :: bs) = b :: bs :=
    List.take_of_length_le (by omega)
  have h2 : List.drop 1000 (b :: bs) = [] :=
    List.drop_eq_nil_of_le (by omega)
  have hchunk : chunksOf 1000 (b :: bs) = [b :: bs] := by
    unfold chunksOf
    calc chunksOfGo 1000 (b :: bs).length (b :: bs)
        = List.take 1000 (b :: bs) ::
            chunksOfGo 1000 bs.length (List.drop 1000 (b :: bs)) := rfl
      _ = [b :: bs] := by rw [h1, h2, chunksOfGo_nil]
  have hex : ∃ a ∈ b :: bs, !(rowOk a) := by
    refine List.countP_pos.mp ?_
    omega
  have hall : (b :: bs).all rowOk = false := by
    rw [Bool.eq_false_iff]
    intro hall
    rw [List.all_eq_true] at hall
    obtain ⟨a, ha, hna⟩ := hex
    have := hall a ha
    simp [this] at hna
  have hsplit := List.length_eq_countP_add_countP rowOk (b :: bs)
  have hcongr : (b :: bs).countP (fun a => decide ¬(rowOk a = true)) =
      (b :: bs).countP (fun r => !(rowOk r)) := by
    refine List.countP_congr ?_
    intro a _
    cases h : rowOk a <;> simp [h]
  rw [hcongr, hbad] at hsplit
  unfold rowsInserted
  rw [hchunk]
  simp only [List.map_cons, List.map_nil, List.sum_cons, List.sum_nil]
  unfold insertBatch
  rw [hall]
  simp only [Bool.false_eq_true, if_false]
  omega

set_option maxRecDepth 40000 in
/-- C8 witness: the rows `0..999` with row index 500 violating, inserting
exactly 999 rows. -/
theorem C8_witness :
    (List.range 1000).length = 1000 ∧
    (List.range 1000).countP (fun r => !(r != 500)) = 1 ∧
    rowsInserted (fun r => r != 500) (List.range 1000) = 999 :=
  ⟨by decide, by decide,
    C8_batch_row_fallback (fun r => r != 500) (List.range 1000) (by decide)
      (by decide)⟩

/-- C10: for a table that exists with a readable column list, a data file
with no non-empty lines is reported as failure — `_load_table_direct`
succeeds only when `rows_inserted > 0` — and one failing table makes the
whole `load_data` call unsuccessful even though no error occurred. -/
theorem C10_zero_rows_is_failure :
    (∀ env : TableLoadEnv, env.catalogOk = true → env.columns ≠ [] →
      (∀ l ∈ env.fileLines, (trimL l.toList).isEmpty = true) →
      loadTableDirect env = false) ∧
    (∀ (lenv : LoadDataEnv) (t : String), lenv.connOk = true →
      t ∈ lenv.foundFiles → lenv.tableLoadOk t = false →
      loadData lenv none = false) := by
  constructor
  · intro env hcat hcols hblank
    unfold loadTableDirect
    rw [hcat]
    have hce : env.columns.isEmpty = false := by
      simpa [List.isEmpty_iff] using hcols
    have hfil : env.fileLines.filter (fun l => !(trimL l.toList).isEmpty) = [] := by
      rw [List.filter_eq_nil_iff]
      intro l hl
      have h := hblank l hl
      simp only [String.toList, List.isEmpty_iff] at h ⊢
      simp [h]
    rw [hfil]
    simp [hce, rowsInserted, chunksOf, chunksOfGo_nil]
  · intro lenv t hconn hmem hfail
    unfold loadData
    have hz : lenv.foundFiles.isEmpty = false := by
      simpa [List.isEmpty_iff] using List.ne_nil_of_mem hmem
    simp only [hz, Bool.false_eq_true, if_false, hconn, Bool.not_true]
    rw [beq_eq_false_iff_ne]
    intro hcount
    have := List.countP_eq_length.mp hcount t hmem
    simp [hfail] at this

/-- C10 witness: an existing one-column table with an all-blank data file
fails, and that failure makes the overall load fail. -/
theorem C10_witness :
    (witEnvTable.catalogOk = true ∧ witEnvTable.columns ≠ [] ∧
      (∀ l ∈ witEnvTable.fileLines, (trimL l.toList).isEmpty = true) ∧
      loadTableDirect witEnvTable = false) ∧
    (witEnvLoadFail.connOk = true ∧ "item" ∈ witEnvLoadFail.foundFiles ∧
      witEnvLoadFail.tableLoadOk "item" = false ∧
      loadData witEnvLoadFail none = false) :=
  ⟨⟨rfl, by decide, by decide,
      C10_zero_rows_is_failure.1 witEnvTable rfl (by decide) (by decide)⟩,
    ⟨rfl, by decide, rfl,
      C10_zero_rows_is_failure.2 witEnvLoadFail "item" rfl (by decide) rfl⟩⟩

/-- C2: for every generated returns record (store, web, catalog), the return
quantity satisfies `0 < return_quantity ≤` the originating sale's quantity,
and the record's monetary fields (return amount, tax, amount-incl-tax, the
scaled net loss, and for web/catalog the scaled shipping cost) equal the
originating sale's corresponding amounts multiplied by
`return_quantity / original_quantity`, within two-decimal rounding tolerance
(1/200). -/
theorem C2_returns_partial_quantity_scaling :
    (∀ (p : Pools) (sales : List StoreSale) (idx : List Nat)
        (dr : Nat → RetDraw),
      (∀ s ∈ sales, 1 ≤ s.ss_quantity) →
      ∀ r ∈ generateStoreReturns p sales idx dr,
        ∃ s ∈ sales,
          0 < r.sr_return_quantity ∧ r.sr_return_quantity ≤ s.ss_quantity ∧
          |r.sr_return_amt - s.ss_ext_sales_price *
            ((r.sr_return_quantity : ℚ) / (s.ss_quantity : ℚ))| ≤ 1/200 ∧
          |r.sr_return_tax - s.ss_ext_tax *
            ((r.sr_return_quantity : ℚ) / (s.ss_quantity : ℚ))| ≤ 1/200 ∧
          |r.sr_return_amt_inc_tax - (s.ss_ext_sales_price + s.ss_ext_tax) *
            ((r.sr_return_quantity : ℚ) / (s.ss_quantity : ℚ))| ≤ 1/200 ∧
          |r.sr_net_loss - s.ss_net_profit *
            ((r.sr_return_quantity : ℚ) / (s.ss_quantity : ℚ))| ≤ 1/200) ∧
    (∀ (p : Pools) (sales : List WebSale) (idx : List Nat)
        (dr : Nat → RetDraw),
      (∀ s ∈ sales, 1 ≤ s.ws_quantity) →
      ∀ r ∈ generateWebReturns p sales idx dr,
        ∃ s ∈ sales,
          0 < r.wr_return_quantity ∧ r.wr_return_quantity ≤ s.ws_quantity ∧
          |r.wr_return_amt - s.ws_ext_sales_price *
            ((r.wr_return_quantity : ℚ) / (s.ws_quantity : ℚ))| ≤ 1/200 ∧
          |r.wr_return_tax - s.ws_ext_tax *
            ((r.wr_return_quantity : ℚ) / (s.ws_quantity : ℚ))| ≤ 1/200 ∧
          |r.wr_return_amt_inc_tax - (s.ws_ext_sales_price + s.ws_ext_tax) *
            ((r.wr_return_quantity : ℚ) / (s.ws_quantity : ℚ))| ≤ 1/200 ∧
          |r.wr_return_ship_cost - s.ws_ext_ship_cost *
            ((r.wr_return_quantity : ℚ) / (s.ws_quantity : ℚ))| ≤ 1/200 ∧
          |r.wr_net_loss - s.ws_net_profit *
            ((r.wr_return_quantity : ℚ) / (s.ws_quantity : ℚ))| ≤ 1/200) ∧
    (∀ (p : Pools) (sales : List CatalogSale) (idx : List Nat)
        (dr : Nat → RetDraw),
      (∀ s ∈ sales, 1 ≤ s.cs_quantity) →
      ∀ r ∈ generateCatalogReturns p sales idx dr,
        ∃ s ∈ sales,
          0 < r.cr_return_quantity ∧ r.cr_return_quantity ≤ s.cs_quantity ∧
          |r.cr_return_amount - s.cs_ext_sales_price *
            ((r.cr_return_quantity : ℚ) / (s.cs_quantity : ℚ))| ≤ 1/200 ∧
          |r.cr_return_tax - s.cs_ext_tax *
            ((r.cr_return_quantity : ℚ) / (s.cs_quantity : ℚ))| ≤ 1/200 ∧
          |r.cr_return_amt_inc_tax - (s.cs_ext_sales_price + s.cs_ext_tax) *
            ((r.cr_return_quantity : ℚ) / (s.cs_quantity : ℚ))| ≤ 1/200 ∧
          |r.cr_return_ship_cost - s.cs_ext_ship_cost *
            ((r.cr_return_quantity : ℚ) / (s.cs_quantity : ℚ))| ≤ 1/200 ∧
          |r.cr_net_loss - s.cs_net_profit *
            ((r.cr_return_quantity : ℚ) / (s.cs_quantity : ℚ))| ≤ 1/200) := by
  refine ⟨?_, ?_, ?_⟩
  · intro p sales idx dr hq r hr
    obtain ⟨s, hs, t, rfl⟩ := mem_generateStoreReturns hr
    have h1 : 1 ≤ s.ss_quantity := hq s hs
    have hfld : (mkStoreReturn p s t).sr_return_quantity =
        randIntN 1 s.ss_quantity t.qtyD := rfl
    refine ⟨s, hs, ?_, ?_, ?_, ?_, ?_, ?_⟩
    · rw [hfld]; exact le_randIntN 1 s.ss_quantity t.qtyD
    · rw [hfld]; exact randIntN_le t.qtyD h1
    · exact round2_abs _
    · exact round2_abs _
    · exact round2_abs _
    · exact round2_abs _
  · intro p sales idx dr hq r hr
    obtain ⟨s, hs, t, rfl⟩ := mem_generateWebReturns hr
    have h1 : 1 ≤ s.ws_quantity := hq s hs
    have hfld : (mkWebReturn p s t).wr_return_quantity =
        randIntN 1 s.ws_quantity t.qtyD := rfl
    refine ⟨s, hs, ?_, ?_, ?_, ?_, ?_, ?_, ?_⟩
    · rw [hfld]; exact le_randIntN 1 s.ws_quantity t.qtyD
    · rw [hfld]; exact randIntN_le t.qtyD h1
    · exact round2_abs _
    · exact round2_abs _
    · exact round2_abs _
    · exact round2_abs _
    · exact round2_abs _
  · intro p sales idx dr hq r hr
    obtain ⟨s, hs, t, rfl⟩ := mem_generateCatalogReturns hr
    have h1 : 1 ≤ s.cs_quantity := hq s hs
    have hfld : (mkCatalogReturn p s t).cr_return_quantity =
        randIntN 1 s.cs_quantity t.qtyD := rfl
    refine ⟨s, hs, ?_, ?_, ?_, ?_, ?_, ?_, ?_⟩
    · rw [hfld]; exact le_randIntN 1 s.cs_quantity t.qtyD
    · rw [hfld]; exact randIntN_le t.qtyD h1
    · exact round2_abs _
    · exact round2_abs _
    · exact round2_abs _
    · exact round2_abs _
    · exact round2_abs _

/-- C2 witness: the three scaling statements instantiated on singleton sales
lists with quantities 2, 3 and 4. -/
theorem C2_witness :
    (∀ s ∈ [witStoreSale], 1 ≤ s.ss_quantity) ∧
    (∀ r ∈ generateStoreReturns witPools [witStoreSale] [0] (fun _ => witRetDraw),
      ∃ s ∈ [witStoreSale],
        0 < r.sr_return_quantity ∧ r.sr_return_quantity ≤ s.ss_quantity ∧
        |r.sr_return_amt - s.ss_ext_sales_price *
          ((r.sr_return_quantity : ℚ) / (s.ss_quantity : ℚ))| ≤ 1/200 ∧
        |r.sr_return_tax - s.ss_ext_tax *
          ((r.sr_return_quantity : ℚ) / (s.ss_quantity : ℚ))| ≤ 1/200 ∧
        |r.sr_return_amt_inc_tax - (s.ss_ext_sales_price + s.ss_ext_tax) *
          ((r.sr_return_quantity : ℚ) / (s.ss_quantity : ℚ))| ≤ 1/200 ∧
        |r.sr_net_loss - s.ss_net_profit *
          ((r.sr_return_quantity : ℚ) / (s.ss_quantity : ℚ))| ≤ 1/200) ∧
    (∀ r ∈ generateWebReturns witPools [witWebSale] [0] (fun _ => witRetDraw),
      ∃ s ∈ [witWebSale],
        0 < r.wr_return_quantity ∧ r.wr_return_quantity ≤ s.ws_quantity ∧
        |r.wr_return_amt - s.ws_ext_sales_price *
          ((r.wr_return_quantity : ℚ) / (s.ws_quantity : ℚ))| ≤ 1/200 ∧
        |r.wr_return_tax - s.ws_ext_tax *
          ((r.wr_return_quantity : ℚ) / (s.ws_quantity : ℚ))| ≤ 1/200 ∧
        |r.wr_return_amt_inc_tax - (s.ws_ext_sales_price + s.ws_ext_tax) *
          ((r.wr_return_quantity : ℚ) / (s.ws_quantity : ℚ))| ≤ 1/200 ∧
        |r.wr_return_ship_cost - s.ws_ext_ship_cost *
          ((r.wr_return_quantity : ℚ) / (s.ws_quantity : ℚ))| ≤ 1/200 ∧
        |r.wr_net_loss - s.ws_net_profit *
          ((r.wr_return_quantity : ℚ) / (s.ws_quantity : ℚ))| ≤ 1/200) ∧
    (∀ r ∈ generateCatalogReturns witPools [witCatalogSale] [0]
        (fun _ => witRetDraw),
      ∃ s ∈ [witCatalogSale],
        0 < r.cr_return_quantity ∧ r.cr_return_quantity ≤ s.cs_quantity ∧
        |r.cr_return_amount - s.cs_ext_sales_price *
          ((r.cr_return_quantity : ℚ) / (s.cs_quantity : ℚ))| ≤ 1/200 ∧
        |r.cr_return_tax - s.cs_ext_tax *
          ((r.cr_return_quantity : ℚ) / (s.cs_quantity : ℚ))| ≤ 1/200 ∧
        |r.cr_return_amt_inc_tax - (s.cs_ext_sales_price + s.cs_ext_tax) *
          ((r.cr_return_quantity : ℚ) / (s.cs_quantity : ℚ))| ≤ 1/200 ∧
        |r.cr_return_ship_cost - s.cs_ext_ship_cost *
          ((r.cr_return_quantity : ℚ) / (s.cs_quantity : ℚ))| ≤ 1/200 ∧
        |r.cr_net_loss - s.cs_net_profit *
          ((r.cr_return_quantity : ℚ) / (s.cs_quantity : ℚ))| ≤ 1/200) :=
  ⟨by decide,
    C2_returns_partial_quantity_scaling.1 witPools [witStoreSale] [0]
      (fun _ => witRetDraw) (by decide),
    C2_returns_partial_quantity_scaling.2.1 witPools [witWebSale] [0]
      (fun _ => witRetDraw) (by decide),
    C2_returns_partial_quantity_scaling.2.2 witPools [witCatalogSale] [0]
      (fun _ => witRetDraw) (by decide)⟩

/-- C9: generating at scale 0 produces a date dimension with one record per
day of the configured window — `d_date` runs exactly over 2023-01-01 through
2023-01-07 — a single store with surrogate key 1 (for any store draws), and
store-sales records whose `ss_store_sk` always equals that single store's
key. -/
theorem C9_test_mode_generation :
    ((generateDateDimension testConfig).map DateRec.d_date =
      [⟨2023, 1, 1⟩, ⟨2023, 1, 2⟩, ⟨2023, 1, 3⟩, ⟨2023, 1, 4⟩,
        ⟨2023, 1, 5⟩, ⟨2023, 1, 6⟩, ⟨2023, 1, 7⟩]) ∧
    (∀ sd : Nat → StoreDraw,
      (generateStores testConfig sd).map StoreRec.s_store_sk = [1]) ∧
    (∀ (sd : Nat → StoreDraw) (p : Pools) (dr : SalesDraws),
      p.stores = generateStores testConfig sd →
      ∀ r ∈ generateStoreSales testConfig p dr, r.ss_store_sk = 1) := by
  refine ⟨by decide, ?_, ?_⟩
  · intro sd
    rfl
  · intro sd p dr hp r hr
    obtain ⟨dRec, _, st, hst, n, di, si, k, rfl⟩ := mem_generateStoreSales hr
    have hsk : (mkStoreSale p dRec st n (dr.txn di si k)).ss_store_sk =
        st.s_store_sk := rfl
    rw [hsk]
    rw [hp] at hst
    have hmem : st.s_store_sk ∈ (generateStores testConfig sd).map
        StoreRec.s_store_sk := List.mem_map_of_mem _ hst
    rw [show (generateStores testConfig sd).map StoreRec.s_store_sk = [1]
      from rfl] at hmem
    simpa using hmem

/-- C9 witness: the store-sales clause applied to pools whose store list is
literally the output of `generate_stores` under the scale-0 configuration. -/
theorem C9_witness :
    witPools.stores = generateStores testConfig (fun _ => ⟨0, 0, 0⟩) ∧
    ∀ r ∈ generateStoreSales testConfig witPools witSalesDraws,
      r.ss_store_sk = 1 :=
  ⟨rfl, C9_test_mode_generation.2.2 (fun _ => ⟨0, 0, 0⟩) witPools
    witSalesDraws rfl⟩

theorem one_le_max_one_toNat (x : Int) : 1 ≤ (max 1 x).toNat := by
  rcases le_total 1 x with h | h
  · rw [max_eq_right h]; omega
  · rw [max_eq_left h]; omega

/-- `store_transactions = max(1, …)` is always at least one. -/
theorem storeTxCount_pos (cfg : GenConfig) (dRec : DateRec) (st : StoreRec)
    (sd : ℚ) : 1 ≤ storeTxCount cfg dRec st sd := by
  unfold storeTxCount
  exact one_le_max_one_toNat _

/-- Over the one-day, one-store pools of the refuting run,
`generate_store_sales` is the transaction-index loop over the single
(date, store) pair: every part of the plumbing except the transaction count
reduces definitionally on the literal pools. -/
theorem cex_generateStoreSales_eq :
    generateStoreSales cexConfig cexPools cexDraws =
      (((((List.range (storeTxCount cexConfig cexDateRec cexStore 1)).map
          (fun k => SaleSlot.mk 0 0 k cexDateRec cexStore)) ++ [] ++ []).take
        100000)).enum.map (fun (ns : Nat × SaleSlot) =>
          mkStoreSale cexPools ns.2.dateRec ns.2.store (ns.1 + 1)
            (cexDraws.txn ns.2.dateIdx ns.2.storeIdx ns.2.txnIdx)) := by
  unfold generateStoreSales cexPools cexDraws
  rfl

/-- The first planned transaction of the refuting run — ticket number 1 — is
emitted: the transaction count is at least one. -/
theorem cex_head_mem :
    mkStoreSale cexPools cexDateRec cexStore 1 (cexDraws.txn 0 0 0) ∈
      generateStoreSales cexConfig cexPools cexDraws := by
  have hpos := storeTxCount_pos cexConfig cexDateRec cexStore 1
  obtain ⟨c, hc⟩ :
      ∃ c, storeTxCount cexConfig cexDateRec cexStore 1 = c + 1 :=
    ⟨storeTxCount cexConfig cexDateRec cexStore 1 - 1, by omega⟩
  rw [cex_generateStoreSales_eq, hc, List.range_succ_eq_map, List.map_cons,
    List.cons_append, List.cons_append,
    show (100000 : Nat) = 99999 + 1 from rfl, List.take_succ_cons,
    List.enum_cons, List.map_cons]
  exact List.mem_cons_self _ _

/-- C1 counterexample: in a generation run over a one-day window with a
single store and the full-mode promotion pool `1..24`, a store-sales record
is produced whose `ss_promo_sk` is 25 — `randint(1, 300)` never consults the
promotion pool, which only has 24 keys — and a web-sales record is produced
whose `ws_ship_date_sk` (sold-date key plus 1-7 days) lies outside the date
dimension's key pool. -/
theorem C1_counterexample :
    (∃ r ∈ generateStoreSales cexConfig cexPools cexDraws,
      r.ss_promo_sk = some 25 ∧ 25 ∉ cexPools.promoKeys) ∧
    (∃ w ∈ generateWebSales cexPools (fun _ => witWebDraw),
      w.ws_ship_date_sk ∉ cexPools.dateDim.map DateRec.d_date_sk) := by
  constructor
  · refine ⟨mkStoreSale cexPools cexDateRec cexStore 1 (cexDraws.txn 0 0 0),
      cex_head_mem, ?_, ?_⟩
    · decide
    · decide
  · decide

/-- C1 (amended): every foreign key that the fact generators draw with
`random.choice` from a materialized dimension pool lands in that pool —
item, customer, demographics, address, time, store and sold-date keys for
store sales; those plus site, page, ship-mode, warehouse and (when present)
promotion keys for web and catalog sales; and reason/time keys plus the
sale-copied keys for the three returns tables.  The exceptions, not
pool-sourced in the code: `ss_promo_sk` is `randint(1, 300)` independent of
the promotion pool, and the ship/returned date keys are the sold-date key
plus a bounded positive offset (1-7 web ship, 3-14 catalog ship, 1-30 /
1-45 / 1-60 returns), which can exceed the date pool. -/
theorem C1_fk_pool_membership :
    (∀ (cfg : GenConfig) (p : Pools) (dr : SalesDraws),
      p.items ≠ [] → p.customerKeys ≠ [] → p.cdemoKeys ≠ [] →
      p.hdemoKeys ≠ [] → p.addrKeys ≠ [] → p.timeKeys ≠ [] →
      ∀ r ∈ generateStoreSales cfg p dr,
        r.ss_item_sk ∈ p.items.map ItemRec.i_item_sk ∧
        r.ss_customer_sk ∈ p.customerKeys ∧
        r.ss_cdemo_sk ∈ p.cdemoKeys ∧
        r.ss_hdemo_sk ∈ p.hdemoKeys ∧
        r.ss_addr_sk ∈ p.addrKeys ∧
        r.ss_sold_time_sk ∈ p.timeKeys ∧
        r.ss_sold_date_sk ∈ p.dateDim.map DateRec.d_date_sk ∧
        r.ss_store_sk ∈ p.stores.map StoreRec.s_store_sk ∧
        ∀ k, r.ss_promo_sk = some k → 1 ≤ k ∧ k ≤ 300) ∧
    (∀ (p : Pools) (dr : Nat → WebTxnDraw),
      p.items ≠ [] → p.customerKeys ≠ [] → p.cdemoKeys ≠ [] →
      p.hdemoKeys ≠ [] → p.addrKeys ≠ [] → p.timeKeys ≠ [] →
      p.dateDim ≠ [] → p.webSiteKeys ≠ [] → p.webPageKeys ≠ [] →
      p.shipModeKeys ≠ [] → p.warehouseKeys ≠ [] → p.promoKeys ≠ [] →
      ∀ r ∈ generateWebSales p dr,
        r.ws_item_sk ∈ p.items.map ItemRec.i_item_sk ∧
        r.ws_bill_customer_sk ∈ p.customerKeys ∧
        r.ws_ship_customer_sk ∈ p.customerKeys ∧
        r.ws_bill_cdemo_sk ∈ p.cdemoKeys ∧
        r.ws_ship_cdemo_sk ∈ p.cdemoKeys ∧
        r.ws_bill_hdemo_sk ∈ p.hdemoKeys ∧
        r.ws_ship_hdemo_sk ∈ p.hdemoKeys ∧
        r.ws_bill_addr_sk ∈ p.addrKeys ∧
        r.ws_ship_addr_sk ∈ p.addrKeys ∧
        r.ws_sold_time_sk ∈ p.timeKeys ∧
        r.ws_sold_date_sk ∈ p.dateDim.map DateRec.d_date_sk ∧
        r.ws_web_site_sk ∈ p.webSiteKeys ∧
        r.ws_web_page_sk ∈ p.webPageKeys ∧
        r.ws_ship_mode_sk ∈ p.shipModeKeys ∧
        r.ws_warehouse_sk ∈ p.warehouseKeys ∧
        (∀ k, r.ws_promo_sk = some k → k ∈ p.promoKeys) ∧
        ∃ off, 1 ≤ off ∧ off ≤ 7 ∧
          r.ws_ship_date_sk = r.ws_sold_date_sk + off) ∧
    (∀ (p : Pools) (dr : Nat → CatTxnDraw),
      p.items ≠ [] → p.customerKeys ≠ [] → p.cdemoKeys ≠ [] →
      p.hdemoKeys ≠ [] → p.addrKeys ≠ [] → p.dateDim ≠ [] →
      p.callCenterKeys ≠ [] → p.catalogPageKeys ≠ [] →
      p.shipModeKeys ≠ [] → p.warehouseKeys ≠ [] → p.promoKeys ≠ [] →
      ∀ r ∈ generateCatalogSales p dr,
        r.cs_item_sk ∈ p.items.map ItemRec.i_item_sk ∧
        r.cs_bill_customer_sk ∈ p.customerKeys ∧
        r.cs_ship_customer_sk ∈ p.customerKeys ∧
        r.cs_bill_cdemo_sk ∈ p.cdemoKeys ∧
        r.cs_ship_cdemo_sk ∈ p.cdemoKeys ∧
        r.cs_bill_hdemo_sk ∈ p.hdemoKeys ∧
        r.cs_ship_hdemo_sk ∈ p.hdemoKeys ∧
        r.cs_bill_addr_sk ∈ p.addrKeys ∧
        r.cs_ship_addr_sk ∈ p.addrKeys ∧
        r.cs_sold_date_sk ∈ p.dateDim.map DateRec.d_date_sk ∧
        r.cs_call_center_sk ∈ p.callCenterKeys ∧
        r.cs_catalog_page_sk ∈ p.catalogPageKeys ∧
        r.cs_ship_mode_sk ∈ p.shipModeKeys ∧
        r.cs_warehouse_sk ∈ p.warehouseKeys ∧
        (∀ k, r.cs_promo_sk = some k → k ∈ p.promoKeys) ∧
        ∃ off, 3 ≤ off ∧ off ≤ 14 ∧
          r.cs_ship_date_sk = r.cs_sold_date_sk + off) ∧
    (∀ (p : Pools) (sales : List StoreSale) (idx : List Nat)
        (dr : Nat → RetDraw),
      p.timeKeys ≠ [] → p.reasonKeys ≠ [] →
      ∀ r ∈ generateStoreReturns p sales idx dr,
        ∃ s ∈ sales,
          r.sr_item_sk = s.ss_item_sk ∧ r.sr_customer_sk = s.ss_customer_sk ∧
          r.sr_cdemo_sk = s.ss_cdemo_sk ∧ r.sr_hdemo_sk = s.ss_hdemo_sk ∧
          r.sr_addr_sk = s.ss_addr_sk ∧ r.sr_store_sk = s.ss_store_sk ∧
          r.sr_return_time_sk ∈ p.timeKeys ∧
          r.sr_reason_sk ∈ p.reasonKeys ∧
          ∃ off, 1 ≤ off ∧ off ≤ 30 ∧
            r.sr_returned_date_sk = s.ss_sold_date_sk + off) ∧
    (∀ (p : Pools) (sales : List WebSale) (idx : List Nat)
        (dr : Nat → RetDraw),
      p.timeKeys ≠ [] → p.reasonKeys ≠ [] →
      ∀ r ∈ generateWebReturns p sales idx dr,
        ∃ s ∈ sales,
          r.wr_item_sk = s.ws_item_sk ∧
          r.wr_refunded_customer_sk = s.ws_bill_customer_sk ∧
          r.wr_returning_customer_sk = s.ws_ship_customer_sk ∧
          r.wr_web_page_sk = s.ws_web_page_sk ∧
          r.wr_returned_time_sk ∈ p.timeKeys ∧
          r.wr_reason_sk ∈ p.reasonKeys ∧
          ∃ off, 1 ≤ off ∧ off ≤ 45 ∧
            r.wr_returned_date_sk = s.ws_sold_date_sk + off) ∧
    (∀ (p : Pools) (sales : List CatalogSale) (idx : List Nat)
        (dr : Nat → RetDraw),
      p.reasonKeys ≠ [] →
      ∀ r ∈ generateCatalogReturns p sales idx dr,
        ∃ s ∈ sales,
          r.cr_item_sk = s.cs_item_sk ∧
          r.cr_refunded_customer_sk = s.cs_bill_customer_sk ∧
          r.cr_returning_customer_sk = s.cs_ship_customer_sk ∧
          r.cr_call_center_sk = s.cs_call_center_sk ∧
          r.cr_catalog_page_sk = s.cs_catalog_page_sk ∧
          r.cr_ship_mode_sk = s.cs_ship_mode_sk ∧
          r.cr_warehouse_sk = s.cs_warehouse_sk ∧
          r.cr_reason_sk ∈ p.reasonKeys ∧
          ∃ off, 1 ≤ off ∧ off ≤ 60 ∧
            r.cr_returned_date_sk = s.cs_sold_date_sk + off) := by
  refine ⟨?_, ?_, ?_, ?_, ?_, ?_⟩
  · intro cfg p dr hi hc hcd hhd ha ht r hr
    obtain ⟨dRec, hd, st, hst, n, di, si, k, rfl⟩ := mem_generateStoreSales hr
    refine ⟨List.mem_map_of_mem _ (pyChoice_mem _ _ hi),
      pyChoice_mem _ _ hc, pyChoice_mem _ _ hcd, pyChoice_mem _ _ hhd,
      pyChoice_mem _ _ ha, pyChoice_mem _ _ ht,
      List.mem_map_of_mem _ hd, List.mem_map_of_mem _ hst, ?_⟩
    intro k' hk'
    have hpr : (mkStoreSale p dRec st n (dr.txn di si k)).ss_promo_sk =
        if (dr.txn di si k).promoHappens then
          some (randIntN 1 300 (dr.txn di si k).promoD)
        else none := rfl
    rw [hpr] at hk'
    by_cases hb : (dr.txn di si k).promoHappens
    · rw [if_pos hb, Option.some_inj] at hk'
      subst hk'
      exact ⟨le_randIntN _ _ _, randIntN_le _ (by norm_num)⟩
    · rw [if_neg hb] at hk'
      exact absurd hk' (by simp)
  · intro p dr hi hc hcd hhd ha ht hdd hsite hpage hsm hwh hpr r hr
    obtain ⟨n, t, rfl⟩ := mem_generateWebSales hr
    have hddm : p.dateDim.map DateRec.d_date_sk ≠ [] := by
      intro hmap
      exact hdd (List.map_eq_nil_iff.mp hmap)
    refine ⟨List.mem_map_of_mem _ (pyChoice_mem _ _ hi),
      pyChoice_mem _ _ hc, pyChoice_mem _ _ hc,
      pyChoice_mem _ _ hcd, pyChoice_mem _ _ hcd,
      pyChoice_mem _ _ hhd, pyChoice_mem _ _ hhd,
      pyChoice_mem _ _ ha, pyChoice_mem _ _ ha,
      pyChoice_mem _ _ ht, pyChoice_mem _ _ hddm,
      pyChoice_mem _ _ hsite, pyChoice_mem _ _ hpage,
      pyChoice_mem _ _ hsm, pyChoice_mem _ _ hwh, ?_, ?_⟩
    · intro k' hk'
      have hpro : (mkWebSale p n t).ws_promo_sk =
          if t.promoHappens then some (pyChoice p.promoKeys 0 t.promoD)
          else none := rfl
      rw [hpro] at hk'
      by_cases hb : t.promoHappens
      · rw [if_pos hb, Option.some_inj] at hk'
        subst hk'
        exact pyChoice_mem _ _ hpr
      · rw [if_neg hb] at hk'
        exact absurd hk' (by simp)
    · exact ⟨randIntN 1 7 t.shipDelayD, le_randIntN _ _ _,
        randIntN_le _ (by norm_num), rfl⟩
  · intro p dr hi hc hcd hhd ha hdd hcc hcp hsm hwh hpr r hr
    obtain ⟨n, t, rfl⟩ := mem_generateCatalogSales hr
    have hddm : p.dateDim.map DateRec.d_date_sk ≠ [] := by
      intro hmap
      exact hdd (List.map_eq_nil_iff.mp hmap)
    refine ⟨List.mem_map_of_mem _ (pyChoice_mem _ _ hi),
      pyChoice_mem _ _ hc, pyChoice_mem _ _ hc,
      pyChoice_mem _ _ hcd, pyChoice_mem _ _ hcd,
      pyChoice_mem _ _ hhd, pyChoice_mem _ _ hhd,
      pyChoice_mem _ _ ha, pyChoice_mem _ _ ha,
      pyChoice_mem _ _ hddm, pyChoice_mem _ _ hcc,
      pyChoice_mem _ _ hcp, pyChoice_mem _ _ hsm, pyChoice_mem _ _ hwh,
      ?_, ?_⟩
    · intro k' hk'
      have hpro : (mkCatalogSale p n t).cs_promo_sk =
          if t.promoHappens then some (pyChoice p.promoKeys 0 t.promoD)
          else none := rfl
      rw [hpro] at hk'
      by_cases hb : t.promoHappens
      · rw [if_pos hb, Option.some_inj] at hk'
        subst hk'
        exact pyChoice_mem _ _ hpr
      · rw [if_neg hb] at hk'
        exact absurd hk' (by simp)
    · exact ⟨randIntN 3 14 t.shipDelayD, le_randIntN _ _ _,
        randIntN_le _ (by norm_num), rfl⟩
  · intro p sales idx dr ht hrea r hr
    obtain ⟨s, hs, t, rfl⟩ := mem_generateStoreReturns hr
    exact ⟨s, hs, rfl, rfl, rfl, rfl, rfl, rfl,
      pyChoice_mem _ _ ht, pyChoice_mem _ _ hrea,
      ⟨randIntN 1 30 t.dayOffD, le_randIntN _ _ _,
        randIntN_le _ (by norm_num), rfl⟩⟩
  · intro p sales idx dr ht hrea r hr
    obtain ⟨s, hs, t, rfl⟩ := mem_generateWebReturns hr
    exact ⟨s, hs, rfl, rfl, rfl, rfl,
      pyChoice_mem _ _ ht, pyChoice_mem _ _ hrea,
      ⟨randIntN 1 45 t.dayOffD, le_randIntN _ _ _,
        randIntN_le _ (by norm_num), rfl⟩⟩
  · intro p sales idx dr hrea r hr
    obtain ⟨s, hs, t, rfl⟩ := mem_generateCatalogReturns hr
    exact ⟨s, hs, rfl, rfl, rfl, rfl, rfl, rfl, rfl,
      pyChoice_mem _ _ hrea,
      ⟨randIntN 1 60 t.dayOffD, le_randIntN _ _ _,
        randIntN_le _ (by norm_num), rfl⟩⟩

/-- C1 witness for the amended theorem: the web-sales clause at the witness
pools (all pools nonempty), so all pool-sourced keys of every generated
record land in their pools. -/
theorem C1_witness :
    witPools.items ≠ [] ∧ witPools.customerKeys ≠ [] ∧
    witPools.cdemoKeys ≠ [] ∧ witPools.hdemoKeys ≠ [] ∧
    witPools.addrKeys ≠ [] ∧ witPools.timeKeys ≠ [] ∧
    witPools.dateDim ≠ [] ∧ witPools.webSiteKeys ≠ [] ∧
    witPools.webPageKeys ≠ [] ∧ witPools.shipModeKeys ≠ [] ∧
    witPools.warehouseKeys ≠ [] ∧ witPools.promoKeys ≠ [] ∧
    (∀ r ∈ generateWebSales witPools (fun _ => witWebDraw),
      r.ws_item_sk ∈ witPools.items.map ItemRec.i_item_sk ∧
      r.ws_bill_customer_sk ∈ witPools.customerKeys ∧
      r.ws_ship_customer_sk ∈ witPools.customerKeys ∧
      r.ws_bill_cdemo_sk ∈ witPools.cdemoKeys ∧
      r.ws_ship_cdemo_sk ∈ witPools.cdemoKeys ∧
      r.ws_bill_hdemo_sk ∈ witPools.hdemoKeys ∧
      r.ws_ship_hdemo_sk ∈ witPools.hdemoKeys ∧
      r.ws_bill_addr_sk ∈ witPools.addrKeys ∧
      r.ws_ship_addr_sk ∈ witPools.addrKeys ∧
      r.ws_sold_time_sk ∈ witPools.timeKeys ∧
      r.ws_sold_date_sk ∈ witPools.dateDim.map DateRec.d_date_sk ∧
      r.ws_web_site_sk ∈ witPools.webSiteKeys ∧
      r.ws_web_page_sk ∈ witPools.webPageKeys ∧
      r.ws_ship_mode_sk ∈ witPools.shipModeKeys ∧
      r.ws_warehouse_sk ∈ witPools.warehouseKeys ∧
      (∀ k, r.ws_promo_sk = some k → k ∈ witPools.promoKeys) ∧
      ∃ off, 1 ≤ off ∧ off ≤ 7 ∧
        r.ws_ship_date_sk = r.ws_sold_date_sk + off) :=
  ⟨by decide, by decide, by decide, by decide, by decide, by decide,
    by decide, by decide, by decide, by decide, by decide, by decide,
    C1_fk_pool_membership.2.1 witPools (fun _ => witWebDraw) (by decide)
      (by decide) (by decide) (by decide) (by decide) (by decide) (by decide)
      (by decide) (by decide) (by decide) (by decide) (by decide)⟩

end TpcdsUtil
